import Mathlib

/-!
A shallow embedding of the `lowlua` state-management layer (`src/state/mod.rs`,
`src/state/traits.rs`, `src/lib.rs`): the stack-based calling convention, the
native-callback trampoline, userdata tagging, interning, and load/run error
translation.

The Lua 5.3 VM itself is an external collaborator consumed through its C API.
Its observable behaviour at that API (stack discipline of `lua_settop`,
`lua_insert`, `lua_remove`, `lua_pcall` result adjustment and message-handler
protocol, `lua_load` pushing an error message on failure, raw table access,
string interning giving one identity per string content) is modelled here by a
concrete state machine: the value stack is a bottom-first list, tables and
full userdata live in heaps addressed by index, and the internal registry
table (stored by the Rust code in the global registry under the extraspace
pointer) is reached through the `regTableId` field.  Native host functions
(`NativeFunction = fn(&mut State) -> RunResult<u32>`) are defunctionalised as
a list of values the body pushes plus a final outcome (return count, explicit
`Err`, or a panic caught by `catch_unwind`).  Backtraces are produced from an
abstract list of activation records formatted exactly as in
`State::backtrace`.
-/

/-- Enum of native Lua types (`LuaType` in `src/lib.rs`). -/
inductive LuaType where
  | Nil
  | Boolean
  | Number
  | String
  | Function
  | LightUserdata
  | Userdata
  | Thread
  | Table
deriving DecidableEq

/-- Rendering of `LuaType` used by the derived `Debug` format in the Rust error messages. -/
def luaTypeName : LuaType → String
  | .Nil => "Nil"
  | .Boolean => "Boolean"
  | .Number => "Number"
  | .String => "String"
  | .Function => "Function"
  | .LightUserdata => "LightUserdata"
  | .Userdata => "Userdata"
  | .Thread => "Thread"
  | .Table => "Table"

/-- A Lua run-time error (`RunError` in `src/lib.rs`): message plus backtrace. -/
structure RunError where
  message : String
  backtrace : List String
deriving DecidableEq

/-- Mirrors `RunError::conversion_from_lua`: the Lua-to-Rust conversion error message. -/
def RunError.conversion_from_lua (srcType : Option LuaType) (dstType : String)
    (backtrace : List String) : RunError :=
  let message := match srcType with
    | some ty =>
        "invalid conversion from Lua type `" ++ luaTypeName ty ++ "` to Rust type `"
          ++ dstType ++ "`"
    | none => "invalid index"
  { message := message, backtrace := backtrace }

/-- A Lua load-time error (`LoadError` in `src/lib.rs`).  The `Io` and `Utf8` payloads are
modelled by their rendered messages. -/
inductive LoadError where
  | Io (msg : String)
  | Utf8 (msg : String)
  | Syntax (msg : String)
deriving DecidableEq

/-- Type identities (`std::any::TypeId`) of host types stored in userdata.  `runErrorT` is
`TypeId::of::<RunError>()`, `panicT` is `TypeId::of::<Box<Any + Send>>()` (the payload type
produced by `panic::catch_unwind`), and `hostT n` enumerates all other host types. -/
inductive TypeTag where
  | runErrorT
  | panicT
  | hostT (n : Nat)
deriving DecidableEq

/-- Mirrors `std::intrinsics::type_name::<T>()` for the modelled type identities. -/
def typeNameOf : TypeTag → String
  | .runErrorT => "lowlua::RunError"
  | .panicT => "alloc::boxed::Box<std::any::Any + Send>"
  | .hostT n => "host type #" ++ toString n

/-- The `DefaultHasher` hash of a `TypeId`, used as the metatable-cache key in
`State::get_metatable_of`.  Hash collisions between distinct types are an accepted risk in
the source; the model picks an injective encoding. -/
def hashTypeId : TypeTag → Int
  | .runErrorT => 0
  | .panicT => 1
  | .hostT n => (n : Int) + 2

/-- Bodies of C functions the wrapper registers with the VM: the native-callback
trampoline (`func` inside `State::push_closure`), the protected-call error handler
(`errfunc` inside `State::new`) and the per-type finalizer (`gc` inside
`State::get_metatable_of`). -/
inductive CFunc where
  | trampoline
  | errfuncC
  | gcC (tag : TypeTag)
deriving DecidableEq

/-- A Lua value.  Full userdata are heap references (they have identity and a mutable
metatable slot).  Function values carry their meaning directly: C closures carry their
body and upvalues; loaded chunks are defunctionalised by what running them does (return a
list of values, or raise an error value), since the interpreter itself is external.
Floats, threads and light userdata play no role in the modelled operations. -/
inductive LuaValue where
  | nil
  | boolean (b : Bool)
  | integer (n : Int)
  | str (s : String)
  | table (id : Nat)
  | closure (c : CFunc) (ups : List LuaValue)
  | chunkReturns (vals : List LuaValue)
  | chunkRaises (e : LuaValue)
  | userdata (id : Nat)

/-- The final step of a native host function (`NativeFunction`): return `Ok(n)`, return an
explicit `Err(RunError)`, or panic (unwound payload caught by `catch_unwind`, modelled as
an opaque number). -/
inductive HostOutcome where
  | ok (n : Nat)
  | err (e : RunError)
  | panicked (payload : Nat)

/-- A defunctionalised `NativeFunction`: the body pushes `pushes` onto the stack and then
finishes with `outcome`. -/
structure HostFn where
  pushes : List LuaValue
  outcome : HostOutcome

/-- Contents of a full-userdata memory block.  `runErr`/`panicPayload`/`hostBytes` are the
`value` field of a `Userdata<T>` written by `push_userdata` (for `T` = `RunError`,
`Box<Any + Send>`, or any other host type, whose content is modelled as raw bytes);
`rawFn` is the bare `NativeFunction` pointer written by `push_closure` (no `Userdata<T>`
header). -/
inductive UDValue where
  | runErr (e : RunError)
  | panicPayload (p : Nat)
  | hostBytes (content : List Nat)
  | rawFn (f : HostFn)

/-- A full-userdata heap object: the `type_id` tag (absent for the bare function-pointer
blocks of `push_closure`), the stored value, and the metatable reference. -/
structure UserdataObj where
  tag : Option TypeTag
  val : UDValue
  mt : Option Nat

/-- Raw table keys that actually occur in the wrapper: strings and integers. -/
inductive TKey where
  | kstr (s : String)
  | kint (n : Int)
deriving DecidableEq

/-- A Lua table, as an insertion-ordered association list. -/
abbrev LuaTable := List (TKey × LuaValue)

/-- Raw lookup in a table. -/
def lookupT : LuaTable → TKey → Option LuaValue
  | [], _ => none
  | (k', v') :: rest, k => if k' = k then some v' else lookupT rest k

/-- Removal of a key (raw assignment of `nil`). -/
def eraseT : LuaTable → TKey → LuaTable
  | [], _ => []
  | (k', v') :: rest, k => if k' = k then rest else (k', v') :: eraseT rest k

/-- Insertion or replacement of a binding. -/
def insertT : LuaTable → TKey → LuaValue → LuaTable
  | [], k, v => [(k, v)]
  | (k', v') :: rest, k, v => if k' = k then (k, v) :: rest else (k', v') :: insertT rest k v

/-- Raw assignment `t[k] = v` (assigning `nil` removes the key, as in Lua). -/
def setEntryT (t : LuaTable) (k : TKey) (v : LuaValue) : LuaTable :=
  match v with
  | .nil => eraseT t k
  | _ => insertT t k v

/-- One activation record as reported by `lua_getstack`/`lua_getinfo` with the `"Sln"`
mask, carrying exactly the fields `State::backtrace` reads. -/
structure Frame where
  shortSrc : String
  currentline : Int
  linedefined : Int
  namewhat : String
  name : String
  what : String
deriving DecidableEq

/-- Formatting of one backtrace line, following `State::backtrace` (src/state/mod.rs
lines 868-885). -/
def formatFrame (d : Frame) : String :=
  let currentline := if 0 < d.currentline then toString d.currentline else ""
  let nm :=
    if d.namewhat ≠ "" then d.namewhat ++ " \x27" ++ d.name ++ "\x27"
    else if d.what.front = 'm' then "[main]"
    else if d.what.front = 'C' then "[native]"
    else "function <" ++ d.shortSrc ++ ":" ++ toString d.linedefined ++ ">"
  d.shortSrc ++ ":" ++ currentline ++ " in " ++ nm

/-- The combined state: the Rust `State` wrapper together with the `lua_State` it owns.
`regTableId` is the internal registry table, stored by `State::new` in the VM's global
registry under the extraspace pointer and reached via `get_internal_registry`.
`upvalues` are the upvalues of the currently executing C closure (what
`lua_upvalueindex` addresses).  `frames` is the current activation-record list, innermost
first.  `atpanicHook` records the `lua_atpanic` handler; the installation in `State::new`
is commented out (`UNDONE`, src/state/mod.rs lines 57-65), so it is never set.
The `should_free` ownership flag is a memory-management concern with no observable effect
on the modelled operations and is omitted. -/
structure LuaState where
  stack : List LuaValue
  tables : List LuaTable
  uds : List UserdataObj
  regTableId : Nat
  upvalues : List LuaValue
  frames : List Frame
  atpanicHook : Option CFunc

/-- Used to specify the number of results of a call (`LuaCallResults` in `src/lib.rs`). -/
inductive LuaCallResults where
  | Num (val : Nat)
  | MultRet

/-- Lua indexing modes (`LuaIndex` in `src/lib.rs`). -/
inductive LuaIndex where
  | Stack (i : Int)
  | Upvalue (u : Nat)
  | Registry

/-- Mirrors `LuaIndex::to_stack` (panics on non-stack indices; the only callers pass
stack indices, so the default is dead code). -/
def LuaIndex.to_stack : LuaIndex → Int
  | .Stack v => v
  | _ => 0

/-- An interned Lua string handle (`LuaString` in `src/lib.rs`): the VM-internal pointer
identity of the string's storage. -/
structure LuaString where
  ptr : Nat
deriving DecidableEq

/-- The pointer identity the VM assigns to a string's storage.  Lua interns string
contents, so identity is a function of the content (the spec's stated reliance:
"identical content maps to identical identity"); the model uses an injective encoding of
the characters. -/
def strPtr (s : String) : Nat :=
  s.data.foldl (fun a c => a * 1114112 + c.toNat + 1) 0

/-- Host-visible outcome of running a protected call through the wrapper: `Ok(())`,
`Err(RunError)`, a re-raised panic payload (`panic::resume_unwind`), or a crash of the
binding itself (`panic!`/`unreachable!`). -/
inductive RunOutcome where
  | ok
  | err (e : RunError)
  | hostPanic (payload : Nat)
  | fatal (msg : String)

/-- Host-visible outcome of loading a chunk: `Ok(())`, `Err(LoadError)` or a crash of the
binding itself. -/
inductive LoadOutcome where
  | ok
  | err (e : LoadError)
  | fatal (msg : String)

/-- A byte source passed to `load_string`/`load_stream`, defunctionalised by its parse
outcome (the parser is the external VM): either it compiles to a chunk value, or it fails
with a syntax error message. -/
inductive Source where
  | parsed (c : LuaValue)
  | syntaxBad (msg : String)

-- Lua C-API status codes (lua.h, Lua 5.3).

def LUA_OK : Int := 0

def LUA_ERRRUN : Int := 2

def LUA_ERRSYNTAX : Int := 3

def LUA_ERRMEM : Int := 4

def LUA_ERRGCMM : Int := 5

def LUA_ERRERR : Int := 6

/-- The registry pseudo-index (`LUA_REGISTRYINDEX` for Lua 5.3's default `LUAI_MAXSTACK`). -/
def LUA_REGISTRYINDEX : Int := -1001000

/-- Resolution of a raw (acceptable) stack index to a 1-based absolute position:
positive indices count from the bottom, negative from the top. -/
def resolvePos (len : Nat) (i : Int) : Option Nat :=
  if 0 < i then (if i ≤ (len : Int) then some i.toNat else none)
  else if i < 0 ∧ 0 < (len : Int) + i + 1 ∧ (len : Int) + i + 1 ≤ (len : Int) then
    some ((len : Int) + i + 1).toNat
  else none

/-- The list-level effect of `lua_settop`: accepts an absolute new top or a negative
(top-relative) index; pads with `nil` when growing. -/
def stackSetTop (l : List LuaValue) (i : Int) : List LuaValue :=
  let n : Int := if 0 ≤ i then i else (l.length : Int) + i + 1
  let m := n.toNat
  if m ≤ l.length then l.take m else l ++ List.replicate (m - l.length) LuaValue.nil

/-- The list-level effect of `lua_remove`: removes the element at a valid index. -/
def stackRemove (l : List LuaValue) (i : Int) : List LuaValue :=
  match resolvePos l.length i with
  | some p => l.take (p - 1) ++ l.drop p
  | none => l

/-- The list-level effect of `lua_insert`: moves the top element into a valid index. -/
def stackInsert (l : List LuaValue) (i : Int) : List LuaValue :=
  match resolvePos l.length i, l.getLast? with
  | some p, some v => l.dropLast.take (p - 1) ++ v :: l.dropLast.drop (p - 1)
  | _, _ => l

namespace LuaState

/-- The value at a raw stack index, `none` for a non-valid index. -/
def valueAtRaw (st : LuaState) (i : Int) : Option LuaValue :=
  match resolvePos st.stack.length i with
  | some p => st.stack.get? (p - 1)
  | none => none

/-- The value addressed by a `LuaIndex` (`to_ffi` plus the VM's index resolution).
`Upvalue u` maps through `lua_upvalueindex(u + 1)` to the executing closure's 1-based
upvalue `u + 1`.  The `Registry` pseudo-index addresses the VM's global registry, which
the wrapper touches only through `rawgetp`/`rawsetp` at the extraspace key — modelled
directly by `regTableId` — so no value is modelled for it here. -/
def valueAt (st : LuaState) : LuaIndex → Option LuaValue
  | .Stack i => st.valueAtRaw i
  | .Upvalue u => st.upvalues.get? u
  | .Registry => none

/-- Mirrors `State::get_top`: the number of stack elements. -/
def get_top (st : LuaState) : Nat := st.stack.length

/-- The VM primitive `lua_settop`: accepts an absolute new top or a negative
(top-relative) index; pads with `nil` when growing. -/
def lua_settop (st : LuaState) (i : Int) : LuaState :=
  { st with stack := stackSetTop st.stack i }

/-- Mirrors `State::set_top` (src/state/mod.rs lines 371-374): asserts `idx >= 0`
(`none` models the panic) before invoking the VM primitive. -/
def set_top (st : LuaState) (idx : Int) : Option LuaState :=
  if idx < 0 then none else some (st.lua_settop idx)

/-- Mirrors `State::pop` (`lua_pop(n)` = `lua_settop(-n-1)`). -/
def pop (st : LuaState) (n : Nat) : LuaState :=
  st.lua_settop (-(n : Int) - 1)

/-- Mirrors `State::remove`: removes the element at the given valid index, shifting the
elements above it down. -/
def remove (st : LuaState) (i : Int) : LuaState :=
  { st with stack := stackRemove st.stack i }

/-- Mirrors `State::insert`: moves the top element into the given valid index, shifting
the elements above it up. -/
def insert (st : LuaState) (i : Int) : LuaState :=
  { st with stack := stackInsert st.stack i }

/-- Mirrors `State::abs_index` (`lua_absindex`): converts a relative stack offset to an
absolute one; positive and pseudo indices are returned unchanged. -/
def abs_index (st : LuaState) : LuaIndex → LuaIndex
  | .Stack i =>
      if 0 < i ∨ i ≤ LUA_REGISTRYINDEX then .Stack i
      else .Stack ((st.get_top : Int) + i + 1)
  | idx => idx

/-- Mirrors `State::push_string` (`lua_pushlstring`). -/
def push_string (st : LuaState) (s : String) : LuaState :=
  { st with stack := st.stack ++ [LuaValue.str s] }

/-- Mirrors `State::push_unsigned` (`lua_pushunsigned`, pushed as a Lua integer). -/
def push_unsigned (st : LuaState) (n : Nat) : LuaState :=
  { st with stack := st.stack ++ [LuaValue.integer (n : Int)] }

/-- Mirrors `State::push_nil`. -/
def push_nil (st : LuaState) : LuaState :=
  { st with stack := st.stack ++ [LuaValue.nil] }

/-- The VM primitive `lua_pushcfunction`: pushes a C function (a closure with no
upvalues). -/
def lua_pushcfunction (st : LuaState) (c : CFunc) : LuaState :=
  { st with stack := st.stack ++ [LuaValue.closure c []] }

/-- The VM primitive `lua_pushvalue` at a raw index. -/
def lua_pushvalue (st : LuaState) (i : Int) : LuaState :=
  { st with stack := st.stack ++ [(st.valueAtRaw i).getD LuaValue.nil] }

/-- The VM primitive `lua_newtable`: allocates an empty table in the heap and pushes a
reference to it. -/
def lua_newtable (st : LuaState) : LuaState :=
  { st with tables := st.tables ++ [[]],
            stack := st.stack ++ [LuaValue.table st.tables.length] }

/-- Mirrors `State::get_internal_registry`: `lua_rawgetp(LUA_REGISTRYINDEX, *extraspace)`
pushes the internal registry table. -/
def get_internal_registry (st : LuaState) : LuaState :=
  { st with stack := st.stack ++ [LuaValue.table st.regTableId] }

/-- Raw read `t[k]` for a table value `v` (yields `nil` when `v` is not a table or the
key is absent; the modelled tables carry no metatables, so raw and non-raw reads of them
agree). -/
def rawLookup (st : LuaState) (v : LuaValue) (k : TKey) : LuaValue :=
  match v with
  | .table id => (lookupT ((st.tables.get? id).getD []) k).getD LuaValue.nil
  | _ => LuaValue.nil

/-- Writes `t[k] = v` into the table heap. -/
def setTableEntry (st : LuaState) (id : Nat) (k : TKey) (v : LuaValue) : LuaState :=
  { st with tables := st.tables.set id (setEntryT ((st.tables.get? id).getD []) k v) }

/-- Raw write `t[k] = val` when `t` is a table value (no-op otherwise). -/
def rawWrite (st : LuaState) (t : LuaValue) (k : TKey) (val : LuaValue) : LuaState :=
  match t with
  | .table id => st.setTableEntry id k val
  | _ => st

/-- The VM primitive `lua_getfield` at a raw index: pushes `t[k]`.  (The Rust wrapper
also returns the pushed value's type; no modelled caller consumes it.) -/
def lua_getfield (st : LuaState) (i : Int) (k : String) : LuaState :=
  { st with stack :=
      st.stack ++ [st.rawLookup ((st.valueAtRaw i).getD LuaValue.nil) (TKey.kstr k)] }

/-- The VM primitive `lua_setfield` at a raw index: pops the value and assigns `t[k]`. -/
def lua_setfield (st : LuaState) (i : Int) (k : String) : LuaState :=
  let v := st.stack.getLast?.getD LuaValue.nil
  let t := (st.valueAtRaw i).getD LuaValue.nil
  rawWrite { st with stack := st.stack.dropLast } t (TKey.kstr k) v

/-- The VM primitive `lua_rawgeti` at a raw index. -/
def lua_rawgeti (st : LuaState) (i : Int) (n : Int) : LuaState :=
  { st with stack :=
      st.stack ++ [st.rawLookup ((st.valueAtRaw i).getD LuaValue.nil) (TKey.kint n)] }

/-- The VM primitive `lua_rawseti` at a raw index: pops the value and assigns `t[n]`. -/
def lua_rawseti (st : LuaState) (i : Int) (n : Int) : LuaState :=
  let v := st.stack.getLast?.getD LuaValue.nil
  let t := (st.valueAtRaw i).getD LuaValue.nil
  rawWrite { st with stack := st.stack.dropLast } t (TKey.kint n) v

/-- Mirrors `State::get_field` (pushes `t[k]`; the returned `LuaType` is not consumed by
any modelled caller). -/
def get_field (st : LuaState) (idx : LuaIndex) (k : String) : LuaState :=
  { st with stack :=
      st.stack ++ [st.rawLookup ((st.valueAt idx).getD LuaValue.nil) (TKey.kstr k)] }

/-- The raw key a Lua value acts as (`nil` and other values never occur as keys in the
wrapper's own tables). -/
def keyOfValue : LuaValue → Option TKey
  | .str s => some (TKey.kstr s)
  | .integer n => some (TKey.kint n)
  | _ => none

/-- Mirrors `State::raw_get`: pops the key from the top, pushes `t[key]`. -/
def raw_get (st : LuaState) (idx : LuaIndex) : LuaState :=
  let key := st.stack.getLast?.getD LuaValue.nil
  let t := (st.valueAt idx).getD LuaValue.nil
  let st1 := { st with stack := st.stack.dropLast }
  { st1 with stack :=
      st1.stack ++ [match keyOfValue key with
        | some k => st1.rawLookup t k
        | none => LuaValue.nil] }

/-- Mirrors `State::raw_set`: `t[k] = v` with `v` on top and `k` below it; pops both. -/
def raw_set (st : LuaState) (idx : LuaIndex) : LuaState :=
  let v := st.stack.getLast?.getD LuaValue.nil
  let k := st.stack.dropLast.getLast?.getD LuaValue.nil
  let t := (st.valueAt idx).getD LuaValue.nil
  let st1 := { st with stack := st.stack.dropLast.dropLast }
  match keyOfValue k with
  | some key => st1.rawWrite t key v
  | none => st1

/-- Mirrors `lua_isnil`. -/
def isNilV : LuaValue → Bool
  | .nil => true
  | _ => false

/-- The `LuaType` of a value. -/
def luaTypeOf : LuaValue → LuaType
  | .nil => .Nil
  | .boolean _ => .Boolean
  | .integer _ => .Number
  | .str _ => .String
  | .table _ => .Table
  | .closure _ _ => .Function
  | .chunkReturns _ => .Function
  | .chunkRaises _ => .Function
  | .userdata _ => .Userdata

/-- Mirrors `State::type_at`: the type of the value at the index, `none` for a non-valid
index (`LUA_TNONE`). -/
def type_at (st : LuaState) (idx : LuaIndex) : Option LuaType :=
  (st.valueAt idx).map luaTypeOf

/-- Mirrors `State::backtrace`: walks the activation records innermost first and formats
each. -/
def backtrace (st : LuaState) : List String :=
  st.frames.map formatFrame

/-- Mirrors `lua_tolstring`'s convertibility: strings convert to themselves and numbers
to their decimal rendering (the in-place replacement of a number slot by its string form
does not change stack occupancy and is not modelled); other values yield `NULL`. -/
def toStringVal : LuaValue → Option String
  | .str s => some s
  | .integer n => some (toString n)
  | _ => none

/-- Mirrors `State::to_string`: the value at the index converted to a `String`, or a
conversion error.  (Lua strings are modelled as valid UTF-8, so the `from_utf8` failure
arm cannot fire.) -/
def to_string (st : LuaState) (idx : LuaIndex) : LuaState × Except RunError String :=
  match st.valueAt idx with
  | some v =>
      match toStringVal v with
      | some s => (st, Except.ok s)
      | none =>
          (st, Except.error (RunError.conversion_from_lua (st.type_at idx) ("String")
            st.backtrace))
  | none =>
      (st, Except.error (RunError.conversion_from_lua none ("String") st.backtrace))

/-- The `FromLua` impl for `String` (src/state/traits.rs lines 217-221). -/
def fromLuaString (st : LuaState) (idx : LuaIndex) : LuaState × Except RunError String :=
  st.to_string idx

/-- Mirrors `State::to_string_ptr`: the interned pointer identity of the string at the
index. -/
def to_string_ptr (st : LuaState) (idx : LuaIndex) : Except RunError Nat :=
  match st.valueAt idx with
  | some (.str s) => Except.ok (strPtr s)
  | _ => Except.error (RunError.conversion_from_lua (st.type_at idx) ("usize") st.backtrace)

/-- Mirrors `State::at`: saves the top, runs the `FromLua` conversion (an arbitrary state
transformer, since `from_lua` receives `&mut State`), then restores the top.  The `none`
arm of `set_top` is dead code: the saved top is never negative. -/
def «at» {α : Type} (st : LuaState)
    (fl : LuaState → LuaIndex → LuaState × Except RunError α) (idx : LuaIndex) :
    LuaState × Except RunError α :=
  let top := st.get_top
  let p := fl st idx
  match p.1.set_top (top : Int) with
  | some st2 => (st2, p.2)
  | none => p

/-- Mirrors `State::is_userdata_of_type::<T>`: the slot is a full userdata whose embedded
`type_id` equals `T`'s. -/
def is_userdata_of_type (st : LuaState) (tag : TypeTag) (idx : LuaIndex) : Bool :=
  match st.valueAt idx with
  | some (.userdata id) =>
      match st.uds.get? id with
      | some o => o.tag = some tag
      | none => false
  | _ => false

/-- Mirrors `State::userdata_at::<T>`: grants the stored value if the slot is a full
userdata whose tag matches, else a typed conversion error (the Rust function returns a
reference; the model returns the referenced content). -/
def userdata_at (st : LuaState) (tag : TypeTag) (idx : LuaIndex) :
    Except RunError UDValue :=
  match st.valueAt idx with
  | some (.userdata id) =>
      match st.uds.get? id with
      | some o =>
          if o.tag = some tag then Except.ok o.val
          else
            Except.error (RunError.conversion_from_lua (some LuaType.Userdata)
              (typeNameOf tag) st.backtrace)
      | none =>
          Except.error (RunError.conversion_from_lua (some LuaType.Userdata)
            (typeNameOf tag) st.backtrace)
  | _ =>
      Except.error (RunError.conversion_from_lua (st.type_at idx) (typeNameOf tag)
        st.backtrace)

/-- Updates one userdata heap object. -/
def modifyUd (uds : List UserdataObj) (id : Nat) (f : UserdataObj → UserdataObj) :
    List UserdataObj :=
  match uds.get? id with
  | some o => uds.set id (f o)
  | none => uds

/-- Assigns a metatable value to a target value (only userdata metatables are consumed by
the modelled operations). -/
def setMetatableOf (st : LuaState) (target mtv : LuaValue) : LuaState :=
  match target, mtv with
  | .userdata id, .table tid =>
      { st with uds := modifyUd st.uds id (fun o => { o with mt := some tid }) }
  | .userdata id, .nil =>
      { st with uds := modifyUd st.uds id (fun o => { o with mt := none }) }
  | _, _ => st

/-- The VM primitive `lua_setmetatable` at a raw index: pops the metatable (or `nil`)
from the top and attaches it to the value at the index. -/
def lua_setmetatable (st : LuaState) (i : Int) : LuaState :=
  setMetatableOf { st with stack := st.stack.dropLast }
    ((st.valueAtRaw i).getD LuaValue.nil) (st.stack.getLast?.getD LuaValue.nil)

/-- Mirrors `State::get_metatable_of::<T>`: looks up the metatable for `T`'s hashed type
identity in the registry's `mt` sub-table, creating and caching a fresh finalizer-bearing
table on first use, and leaves it on top of the stack. -/
def get_metatable_of (st : LuaState) (tag : TypeTag) : LuaState :=
  let mtKey := hashTypeId tag
  let st1 := st.get_internal_registry
  let st2 := st1.lua_getfield (-1) ("mt")
  let st3 := st2.remove (-2)
  let st4 := st3.lua_rawgeti (-1) mtKey
  let st5 :=
    if isNilV (st4.stack.getLast?.getD LuaValue.nil) then
      let st5a := st4.pop 1
      let st5b := st5a.lua_newtable
      let st5c := st5b.lua_pushcfunction (CFunc.gcC tag)
      let st5d := st5c.lua_setfield (-2) ("__gc")
      let st5e := st5d.lua_pushvalue (-1)
      st5e.lua_rawseti (-3) mtKey
    else st4
  st5.remove (-2)

/-- Mirrors `State::push_userdata::<T>`: writes a `Userdata { type_id, value }` block
into a fresh VM-managed allocation, pushes it, and attaches the cached metatable for
`T`. -/
def push_userdata (st : LuaState) (tag : TypeTag) (value : UDValue) : LuaState :=
  let st1 := { st with uds := st.uds ++ [UserdataObj.mk (some tag) value none],
                       stack := st.stack ++ [LuaValue.userdata st.uds.length] }
  let st2 := st1.get_metatable_of tag
  st2.lua_setmetatable (-2)

/-- Mirrors `State::userdata_move::<T>`: strips the record's metatable (so the finalizer
will not run) and bit-copies the value out. -/
def userdata_move (st : LuaState) (tag : TypeTag) (idx : LuaIndex) :
    LuaState × Except RunError UDValue :=
  let aidx := st.abs_index idx
  let st1 := st.push_nil
  let st2 := st1.lua_setmetatable aidx.to_stack
  (st2, st2.userdata_at tag aidx)

/-- Mirrors `State::push_closure`: writes the `NativeFunction` pointer into a bare
userdata block, moves it below the `n` user upvalues, and builds the trampoline closure
over those `n + 1` values. -/
def push_closure (st : LuaState) (f : HostFn) (n : Nat) : LuaState :=
  let st1 := { st with uds := st.uds ++ [UserdataObj.mk none (UDValue.rawFn f) none],
                       stack := st.stack ++ [LuaValue.userdata st.uds.length] }
  let n1 := n + 1
  let st2 := if 1 < n1 then st1.insert (-(n1 : Int)) else st1
  let ups := st2.stack.drop (st2.stack.length - n1)
  { st2 with stack := st2.stack.take (st2.stack.length - n1)
                        ++ [LuaValue.closure CFunc.trampoline ups] }

/-- Mirrors `State::push_function` (`push_closure` with no upvalues). -/
def push_function (st : LuaState) (f : HostFn) : LuaState :=
  st.push_closure f 0

/-- Mirrors `State::intern`: retains the string in the registry's `string` sub-table
keyed by its pointer identity and returns the handle. -/
def intern (st : LuaState) (s : String) : LuaState × LuaString :=
  let st1 := st.get_internal_registry
  let st2 := st1.get_field (LuaIndex.Stack (-1)) ("string")
  let st3 := st2.push_string s
  let val := match st3.to_string_ptr (LuaIndex.Stack (-1)) with
    | Except.ok v => v
    | Except.error _ => 0
  let st4 := st3.push_unsigned val
  let st5 := st4.insert (-2)
  let st6 := st5.raw_set (LuaIndex.Stack (-3))
  let st7 := st6.pop 2
  (st7, ⟨val⟩)

/-- The `ToLua` impl for `LuaString` (src/state/traits.rs lines 118-127): looks the
retained string value up by handle in the registry's `string` sub-table and pushes it. -/
def pushLuaString (st : LuaState) (ls : LuaString) : LuaState :=
  let st1 := st.get_internal_registry
  let st2 := st1.get_field (LuaIndex.Stack (-1)) ("string")
  let st3 := st2.remove (-2)
  let st4 := st3.push_unsigned ls.ptr
  let st5 := st4.raw_get (LuaIndex.Stack (-2))
  st5.remove (-2)

end LuaState

/-- Outcome of invoking a callable inside the VM: a normal return with the result values,
or a raised error value (`lua_error` / a runtime error). -/
inductive CallOut where
  | ret (vals : List LuaValue)
  | raised (e : LuaValue)

/-- The activation record the VM pushes for a C function. -/
def cFrame : Frame :=
  { shortSrc := "[C]", currentline := -1, linedefined := -1,
    namewhat := "", name := "", what := "C" }

/-- The body of the native-callback trampoline (`func` inside `State::push_closure`),
run on the callee's fresh stack frame: the host function body runs
(modelled as pushing `f.pushes`) inside `panic::catch_unwind`; `Ok(n)` returns the top
`n` values, `Err(e)` boxes the error as a `RunError` userdata and raises it with
`lua_error`, and a caught panic boxes its payload as a `Box<Any + Send>` userdata and
raises it the same way — the unwind never propagates past the trampoline. -/
def runTrampoline (st : LuaState) (f : HostFn) : LuaState × CallOut :=
  let st1 := { st with stack := st.stack ++ f.pushes }
  match f.outcome with
  | .ok n => (st1, .ret (st1.stack.drop (st1.stack.length - n)))
  | .err e =>
      let st2 := st1.push_userdata TypeTag.runErrorT (UDValue.runErr e)
      (st2, .raised (st2.stack.getLast?.getD LuaValue.nil))
  | .panicked p =>
      let st2 := st1.push_userdata TypeTag.panicT (UDValue.panicPayload p)
      (st2, .raised (st2.stack.getLast?.getD LuaValue.nil))

/-- The protected-call error handler (`errfunc` inside `State::new`), run on a frame
holding the in-flight error value at index 1: a value that is already a tagged
`RunError` or panic-payload userdata passes through unchanged; any other value is
coerced to a `RunError` carrying the stringified message (or "unknown error") and a
freshly captured backtrace.  It returns one result: the top of its frame. -/
def errfunc (st : LuaState) : LuaState × CallOut :=
  if st.is_userdata_of_type TypeTag.runErrorT (LuaIndex.Stack 1)
      || st.is_userdata_of_type TypeTag.panicT (LuaIndex.Stack 1) then
    (st, .ret (st.stack.drop (st.stack.length - 1)))
  else
    let p := LuaState.«at» st LuaState.fromLuaString (LuaIndex.Stack 1)
    let message := match p.2 with
      | .ok val => val
      | .error _ => "unknown error"
    let bt := p.1.backtrace
    let st2 := p.1.push_userdata TypeTag.runErrorT
      (UDValue.runErr { message := message, backtrace := bt })
    (st2, .ret (st2.stack.drop (st2.stack.length - 1)))

/-- The fresh activation frame the VM builds when a C closure is invoked: the frame's
stack window holds exactly the arguments, the closure's upvalues become addressable, and
a C activation record is pushed. -/
def frameState (st : LuaState) (args ups : List LuaValue) : LuaState :=
  { st with stack := args, upvalues := ups, frames := cFrame :: st.frames }

/-- Return from a callee's frame to the caller's view: the caller's stack window,
upvalues and activation records are restored while heap effects persist. -/
def callerView (st stNew : LuaState) : LuaState :=
  { stNew with stack := st.stack, upvalues := st.upvalues, frames := st.frames }

/-- Invocation of a callable value on a fresh frame holding `args`.  The caller's stack,
upvalues and frame list are restored on return; heap effects persist.  C closures run
their registered body (`trampoline` reads the `NativeFunction` pointer from upvalue 1, as
`lua_touserdata(lua, lua_upvalueindex(1))` does); chunks are defunctionalised by their
outcome; finalizers are only ever invoked by the collector.  Calling a non-function
raises a runtime error, as the VM does. -/
def callValue (st : LuaState) (fv : LuaValue) (args : List LuaValue) :
    LuaState × CallOut :=
  match fv with
  | .closure c ups =>
      match c with
      | .trampoline =>
          match ups.head? with
          | some (.userdata id) =>
              match st.uds.get? id with
              | some o =>
                  match o.val with
                  | .rawFn f =>
                      let p := runTrampoline (frameState st args ups) f
                      (callerView st p.1, p.2)
                  | _ => (st, .raised (LuaValue.str ("ill-formed native closure")))
              | none => (st, .raised (LuaValue.str ("ill-formed native closure")))
          | _ => (st, .raised (LuaValue.str ("ill-formed native closure")))
      | .errfuncC =>
          let p := errfunc (frameState st args ups)
          (callerView st p.1, p.2)
      | .gcC _ => (st, .ret [])
  | .chunkReturns vals => (st, .ret vals)
  | .chunkRaises e => (st, .raised e)
  | _ => (st, .raised (LuaValue.str ("attempt to call a non-function value")))

/-- The VM primitive `lua_pcall`: the callable sits below its `nargs` arguments on top of
the stack.  On success the callable and arguments are replaced by the results, adjusted
to `nresults` (`none` models `LUA_MULTRET`).  On an error the message handler at absolute
position `msgh` is applied to the error value, the stack is cut back to below the
callable, the handler's result is pushed, and `LUA_ERRRUN` is returned (an error inside
the handler yields `LUA_ERRERR`). -/
def lua_pcall (st : LuaState) (nargs : Nat) (nresults : Option Nat) (msgh : Int) :
    LuaState × Int :=
  let len := st.stack.length
  let funcPos := len - nargs
  let fv := (st.stack.get? (funcPos - 1)).getD LuaValue.nil
  let args := st.stack.drop (len - nargs)
  let base := st.stack.take (funcPos - 1)
  let p := callValue { st with stack := base } fv args
  match p.2 with
  | .ret vals =>
      let adjusted := match nresults with
        | some k =>
            if k ≤ vals.length then vals.take k
            else vals ++ List.replicate (k - vals.length) LuaValue.nil
        | none => vals
      ({ p.1 with stack := base ++ adjusted }, LUA_OK)
  | .raised e =>
      let hv := (p.1.valueAtRaw msgh).getD LuaValue.nil
      let q := callValue p.1 hv [e]
      match q.2 with
      | .ret hvals => ({ q.1 with stack := base ++ [hvals.headD LuaValue.nil] }, LUA_ERRRUN)
      | .raised _ => ({ q.1 with stack := base }, LUA_ERRERR)

/-- The body of `lua_pcall` once the callable (`fv`), its arguments and the underlying
`base` (with the message handler `efv` at position `S.length + 1`) have been located on
the stack.  Used only to state the decomposition lemma for `lua_pcall`. -/
def lua_pcall_framed (st : LuaState) (S args : List LuaValue) (efv fv : LuaValue)
    (nresults : Option Nat) : LuaState × Int :=
  let base := S ++ [efv]
  let p := callValue { st with stack := base } fv args
  match p.2 with
  | .ret vals =>
      let adjusted := match nresults with
        | some k =>
            if k ≤ vals.length then vals.take k
            else vals ++ List.replicate (k - vals.length) LuaValue.nil
        | none => vals
      ({ p.1 with stack := base ++ adjusted }, LUA_OK)
  | .raised e =>
      let hv := (p.1.valueAtRaw ((S.length : Int) + 1)).getD LuaValue.nil
      let q := callValue p.1 hv [e]
      match q.2 with
      | .ret hvals => ({ q.1 with stack := base ++ [hvals.headD LuaValue.nil] }, LUA_ERRRUN)
      | .raised _ => ({ q.1 with stack := base }, LUA_ERRERR)

namespace LuaState

/-- Mirrors `State::lua_to_rust_run_result`: `LUA_OK` is `Ok(())`; on a runtime error the
tagged error userdata on top is moved back out (its metatable stripped) and popped —
a `RunError` is returned as `Err`, a panic payload is re-raised with
`panic::resume_unwind`; memory and handler failures crash the binding. -/
def lua_to_rust_run_result (st : LuaState) (result : Int) : LuaState × RunOutcome :=
  if result = LUA_OK then (st, .ok)
  else if result = LUA_ERRRUN ∨ result = LUA_ERRGCMM then
    if st.is_userdata_of_type TypeTag.runErrorT (LuaIndex.Stack (-1)) then
      let p := st.userdata_move TypeTag.runErrorT (LuaIndex.Stack (-1))
      let st2 := p.1.pop 1
      match p.2 with
      | .ok (.runErr e) => (st2, .err e)
      | _ => (st2, .fatal ("userdata_move unwrap failed"))
    else if st.is_userdata_of_type TypeTag.panicT (LuaIndex.Stack (-1)) then
      let p := st.userdata_move TypeTag.panicT (LuaIndex.Stack (-1))
      let st2 := p.1.pop 1
      match p.2 with
      | .ok (.panicPayload pay) => (st2, .hostPanic pay)
      | _ => (st2, .fatal ("userdata_move unwrap failed"))
    else (st, .fatal ("unreachable error value"))
  else if result = LUA_ERRMEM then (st, .fatal ("Lua memory allocation error"))
  else if result = LUA_ERRERR then (st, .fatal ("Lua error handler failed"))
  else (st, .fatal ("unreachable status code"))

/-- The first half of `State::call`: push the internal registry, fetch `errfunc` from it,
drop the registry reference, and insert the handler below the callable and its
arguments; returns the prepared state and the handler's absolute position. -/
def call_setup (st : LuaState) (nargs : Nat) : LuaState × Int :=
  let st1 := st.get_internal_registry
  let st2 := st1.get_field (LuaIndex.Stack (-1)) ("errfunc")
  let st3 := st2.remove (-2)
  let efi := (st3.abs_index (LuaIndex.Stack (-(nargs : Int) - 2))).to_stack
  (st3.insert efi, efi)

/-- Mirrors `State::call`: every call is protected, with the registry's error handler
inserted below the callable and removed again after `lua_pcall` regardless of outcome. -/
def call (st : LuaState) (nargs : Nat) (results : LuaCallResults) :
    LuaState × RunOutcome :=
  let nresults : Option Nat := match results with
    | .Num val => some val
    | .MultRet => none
  let p := st.call_setup nargs
  let q := lua_pcall p.1 nargs nresults p.2
  let st6 := q.1.remove p.2
  st6.lua_to_rust_run_result q.2

/-- The VM primitive `lua_load` on a defunctionalised source: on success it pushes the
compiled chunk; on a syntax error it pushes the error message (Lua reference manual:
"it pushes an error message") and returns `LUA_ERRSYNTAX`. -/
def lua_load (st : LuaState) (src : Source) (chunkname : String) : LuaState × Int :=
  match src with
  | .parsed c => ({ st with stack := st.stack ++ [c] }, LUA_OK)
  | .syntaxBad msg => ({ st with stack := st.stack ++ [LuaValue.str msg] }, LUA_ERRSYNTAX)

/-- Mirrors `State::lua_to_rust_load_result`: reads (without popping) the error message
from the top of the stack on `LUA_ERRSYNTAX`; memory and handler failures crash the
binding. -/
def lua_to_rust_load_result (st : LuaState) (result : Int) : LuaState × LoadOutcome :=
  if result = LUA_OK then (st, .ok)
  else if result = LUA_ERRSYNTAX then
    let p := LuaState.«at» st LuaState.fromLuaString (LuaIndex.Stack (-1))
    match p.2 with
    | .ok msg => (p.1, .err (.Syntax msg))
    | .error _ => (p.1, .fatal ("unwrap on a failed conversion"))
  else if result = LUA_ERRMEM then (st, .fatal ("Lua memory allocation error"))
  else if result = LUA_ERRERR then (st, .fatal ("Lua error handler failed"))
  else (st, .fatal ("unreachable status code"))

/-- Mirrors `State::load_stream`. -/
def load_stream (st : LuaState) (stream : Source) (chunkname : String) :
    LuaState × LoadOutcome :=
  let p := st.lua_load stream chunkname
  p.1.lua_to_rust_load_result p.2

/-- Mirrors `State::load_string` (copies the bytes and delegates to `load_stream`). -/
def load_string (st : LuaState) (s : Source) (chunkname : String) :
    LuaState × LoadOutcome :=
  st.load_stream s chunkname

/-- Mirrors `State::new`: a fresh VM instance whose internal registry table holds the
error handler (`errfunc`), the interned-string table (`string`), the metatable cache
(`mt`) and the collaborator table (`user`), stored under the extraspace key.  The
`lua_atpanic` installation is commented out in the source (`UNDONE`, src/state/mod.rs
lines 57-65), so no custom panic hook is set. -/
def new : LuaState :=
  let st0 : LuaState := { stack := [], tables := [], uds := [], regTableId := 0,
                          upvalues := [], frames := [], atpanicHook := none }
  let st1 := st0.lua_newtable
  let st2 := st1.lua_pushcfunction CFunc.errfuncC
  let st3 := st2.lua_setfield (-2) ("errfunc")
  let st4 := (st3.lua_newtable).lua_setfield (-2) ("string")
  let st5 := (st4.lua_newtable).lua_setfield (-2) ("mt")
  let st6 := (st5.lua_newtable).lua_setfield (-2) ("user")
  match st6.stack.getLast? with
  | some (.table id) => { st6 with stack := st6.stack.dropLast, regTableId := id }
  | _ => st6

/-- The registry binding for a string key, as seen through `get_internal_registry` +
`get_field`. -/
def regLookup (st : LuaState) (k : String) : Option LuaValue :=
  (st.tables.get? st.regTableId).bind (fun t => lookupT t (TKey.kstr k))

end LuaState

/-- The body of `State::call` once the handler has been inserted below the callable:
the protected call at the handler position followed by `remove` of the handler and
`lua_to_rust_run_result`.  Stated over the decomposed stack `S ++ efv :: fv :: args`. -/
def call_framed (st : LuaState) (S args : List LuaValue) (efv fv : LuaValue)
    (nresults : Option Nat) : LuaState × RunOutcome :=
  let q := lua_pcall_framed { st with stack := S ++ efv :: fv :: args } S args efv fv nresults
  (q.1.remove ((S.length : Int) + 1)).lua_to_rust_run_result q.2

/-! Basic list bookkeeping used by the stack lemmas. -/

theorem take_len_app {α : Type} (l r : List α) : (l ++ r).take l.length = l := by
  induction l with
  | nil => simp
  | cons a l ih => simp [ih]

theorem drop_len_app {α : Type} (l r : List α) : (l ++ r).drop l.length = r := by
  induction l with
  | nil => simp
  | cons a l ih => simp [ih]

theorem get_len_app {α : Type} (l : List α) (x : α) (r : List α) :
    (l ++ x :: r).get? l.length = some x := by
  induction l with
  | nil => simp
  | cons a l ih => simpa using ih

theorem drop_len_succ_app {α : Type} (l : List α) (x : α) (r : List α) :
    (l ++ x :: r).drop (l.length + 1) = r := by
  induction l with
  | nil => simp
  | cons a l ih => simpa using ih

/-! Index resolution lemmas. -/

theorem resolvePos_of_pos (len : Nat) (i : Int) (p : Nat) (h1 : 0 < i) (h2 : i = (p : Int))
    (h3 : p ≤ len) : resolvePos len i = some p := by
  unfold resolvePos
  rw [if_pos h1, if_pos (by omega)]
  congr 1
  omega

theorem resolvePos_of_neg (len : Nat) (i : Int) (p : Nat) (h1 : i < 0)
    (h2 : (len : Int) + i + 1 = (p : Int)) (h3 : 1 ≤ p) : resolvePos len i = some p := by
  unfold resolvePos
  rw [if_neg (by omega), if_pos ⟨h1, by omega, by omega⟩]
  congr 1
  omega

/-! Specifications of the list-level stack operations. -/

theorem stackSetTop_toNat (l : List LuaValue) (i : Int) (k : Nat)
    (hk : (if 0 ≤ i then i else (l.length : Int) + i + 1).toNat = k) :
    stackSetTop l i =
      if k ≤ l.length then l.take k else l ++ List.replicate (k - l.length) LuaValue.nil := by
  simp only [stackSetTop]
  rw [hk]

theorem stackSetTop_cut (l r : List LuaValue) :
    stackSetTop (l ++ r) (-(r.length : Int) - 1) = l := by
  rw [stackSetTop_toNat (l ++ r) _ l.length (by simp only [List.length_append]; omega)]
  rw [if_pos (by simp only [List.length_append]; omega), take_len_app]

theorem stackSetTop_len (l : List LuaValue) (k : Nat) :
    (stackSetTop l (k : Int)).length = k := by
  rw [stackSetTop_toNat l _ k (by omega)]
  by_cases h : k ≤ l.length
  · rw [if_pos h]
    simp only [List.length_take]
    omega
  · rw [if_neg h]
    simp only [List.length_append, List.length_replicate]
    omega

theorem stackSetTop_self (l : List LuaValue) : stackSetTop l (l.length : Int) = l := by
  rw [stackSetTop_toNat l _ l.length (by omega), if_pos (le_refl _)]
  simp

theorem stackRemove_at (l : List LuaValue) (x : LuaValue) (r : List LuaValue) :
    stackRemove (l ++ x :: r) ((l.length : Int) + 1) = l ++ r := by
  unfold stackRemove
  rw [resolvePos_of_pos _ _ (l.length + 1) (by omega) (by omega)
    (by simp only [List.length_append, List.length_cons]; omega)]
  show (l ++ x :: r).take (l.length + 1 - 1) ++ (l ++ x :: r).drop (l.length + 1) = l ++ r
  rw [Nat.add_sub_cancel, take_len_app, drop_len_succ_app]

theorem stackRemove_neg (l : List LuaValue) (x : LuaValue) (r : List LuaValue) :
    stackRemove (l ++ x :: r) (-((r.length : Int) + 1)) = l ++ r := by
  unfold stackRemove
  rw [resolvePos_of_neg _ _ (l.length + 1) (by omega)
    (by simp only [List.length_append, List.length_cons]; push_cast; omega) (by omega)]
  show (l ++ x :: r).take (l.length + 1 - 1) ++ (l ++ x :: r).drop (l.length + 1) = l ++ r
  rw [Nat.add_sub_cancel, take_len_app, drop_len_succ_app]

theorem stackInsert_at (pre mid : List LuaValue) (v : LuaValue) :
    stackInsert (pre ++ mid ++ [v]) ((pre.length : Int) + 1) = pre ++ v :: mid := by
  unfold stackInsert
  rw [resolvePos_of_pos _ _ (pre.length + 1) (by omega) (by omega)
    (by simp only [List.length_append, List.length_cons, List.length_nil]; omega)]
  rw [List.getLast?_concat, List.dropLast_concat]
  show (pre ++ mid).take (pre.length + 1 - 1) ++ v :: (pre ++ mid).drop (pre.length + 1 - 1)
      = pre ++ v :: mid
  rw [Nat.add_sub_cancel, take_len_app, drop_len_app]

theorem stackInsert_neg (pre mid : List LuaValue) (v : LuaValue) :
    stackInsert (pre ++ mid ++ [v]) (-((mid.length : Int) + 1)) = pre ++ v :: mid := by
  unfold stackInsert
  rw [resolvePos_of_neg _ _ (pre.length + 1) (by omega)
    (by simp only [List.length_append, List.length_cons, List.length_nil]; push_cast; omega)
    (by omega)]
  rw [List.getLast?_concat, List.dropLast_concat]
  show (pre ++ mid).take (pre.length + 1 - 1) ++ v :: (pre ++ mid).drop (pre.length + 1 - 1)
      = pre ++ v :: mid
  rw [Nat.add_sub_cancel, take_len_app, drop_len_app]

/-! Value reads at shaped stacks. -/

theorem LuaState.valueAtRaw_negk (st : LuaState) (l : List LuaValue) (x : LuaValue)
    (r : List LuaValue) (h : st.stack = l ++ x :: r) :
    st.valueAtRaw (-((r.length : Int) + 1)) = some x := by
  unfold LuaState.valueAtRaw
  rw [h, resolvePos_of_neg _ _ (l.length + 1) (by omega)
    (by simp only [List.length_append, List.length_cons]; push_cast; omega) (by omega)]
  show (l ++ x :: r).get? (l.length + 1 - 1) = some x
  rw [Nat.add_sub_cancel, get_len_app]

theorem LuaState.valueAtRaw_pos (st : LuaState) (l : List LuaValue) (x : LuaValue)
    (r : List LuaValue) (h : st.stack = l ++ x :: r) :
    st.valueAtRaw ((l.length : Int) + 1) = some x := by
  unfold LuaState.valueAtRaw
  rw [h, resolvePos_of_pos _ _ (l.length + 1) (by omega) (by omega)
    (by simp only [List.length_append, List.length_cons]; omega)]
  show (l ++ x :: r).get? (l.length + 1 - 1) = some x
  rw [Nat.add_sub_cancel, get_len_app]

theorem LuaState.valueAtRaw_neg1 (st : LuaState) (l : List LuaValue) (x : LuaValue)
    (h : st.stack = l ++ [x]) : st.valueAtRaw (-1) = some x := by
  have h0 := st.valueAtRaw_negk l x [] h
  simpa using h0

theorem LuaState.valueAtRaw_neg2 (st : LuaState) (l : List LuaValue) (x y : LuaValue)
    (h : st.stack = l ++ [x, y]) : st.valueAtRaw (-2) = some x := by
  have h0 := st.valueAtRaw_negk l x [y] h
  simpa using h0

theorem LuaState.valueAtRaw_neg3 (st : LuaState) (l : List LuaValue) (x y z : LuaValue)
    (h : st.stack = l ++ [x, y, z]) : st.valueAtRaw (-3) = some x := by
  have h0 := st.valueAtRaw_negk l x [y, z] h
  simpa using h0

/-! Projection lemmas for the primitive operations. -/

namespace LuaState

@[simp] theorem push_string_stack (st : LuaState) (s : String) :
    (st.push_string s).stack = st.stack ++ [LuaValue.str s] := rfl

@[simp] theorem push_string_tables (st : LuaState) (s : String) :
    (st.push_string s).tables = st.tables := rfl

@[simp] theorem push_string_uds (st : LuaState) (s : String) :
    (st.push_string s).uds = st.uds := rfl

@[simp] theorem push_string_frames (st : LuaState) (s : String) :
    (st.push_string s).frames = st.frames := rfl

@[simp] theorem push_string_upvalues (st : LuaState) (s : String) :
    (st.push_string s).upvalues = st.upvalues := rfl

@[simp] theorem push_string_reg (st : LuaState) (s : String) :
    (st.push_string s).regTableId = st.regTableId := rfl

@[simp] theorem push_unsigned_stack (st : LuaState) (n : Nat) :
    (st.push_unsigned n).stack = st.stack ++ [LuaValue.integer (n : Int)] := rfl

@[simp] theorem push_unsigned_tables (st : LuaState) (n : Nat) :
    (st.push_unsigned n).tables = st.tables := rfl

@[simp] theorem push_unsigned_uds (st : LuaState) (n : Nat) :
    (st.push_unsigned n).uds = st.uds := rfl

@[simp] theorem push_unsigned_frames (st : LuaState) (n : Nat) :
    (st.push_unsigned n).frames = st.frames := rfl

@[simp] theorem push_unsigned_upvalues (st : LuaState) (n : Nat) :
    (st.push_unsigned n).upvalues = st.upvalues := rfl

@[simp] theorem push_unsigned_reg (st : LuaState) (n : Nat) :
    (st.push_unsigned n).regTableId = st.regTableId := rfl

@[simp] theorem push_nil_stack (st : LuaState) :
    st.push_nil.stack = st.stack ++ [LuaValue.nil] := rfl

@[simp] theorem push_nil_tables (st : LuaState) : st.push_nil.tables = st.tables := rfl

@[simp] theorem push_nil_uds (st : LuaState) : st.push_nil.uds = st.uds := rfl

@[simp] theorem push_nil_frames (st : LuaState) : st.push_nil.frames = st.frames := rfl

@[simp] theorem push_nil_upvalues (st : LuaState) : st.push_nil.upvalues = st.upvalues := rfl

@[simp] theorem push_nil_reg (st : LuaState) : st.push_nil.regTableId = st.regTableId := rfl

@[simp] theorem lua_pushcfunction_stack (st : LuaState) (c : CFunc) :
    (st.lua_pushcfunction c).stack = st.stack ++ [LuaValue.closure c []] := rfl

@[simp] theorem lua_pushcfunction_tables (st : LuaState) (c : CFunc) :
    (st.lua_pushcfunction c).tables = st.tables := rfl

@[simp] theorem lua_pushcfunction_uds (st : LuaState) (c : CFunc) :
    (st.lua_pushcfunction c).uds = st.uds := rfl

@[simp] theorem lua_pushcfunction_frames (st : LuaState) (c : CFunc) :
    (st.lua_pushcfunction c).frames = st.frames := rfl

@[simp] theorem lua_pushcfunction_upvalues (st : LuaState) (c : CFunc) :
    (st.lua_pushcfunction c).upvalues = st.upvalues := rfl

@[simp] theorem lua_pushcfunction_reg (st : LuaState) (c : CFunc) :
    (st.lua_pushcfunction c).regTableId = st.regTableId := rfl

@[simp] theorem lua_pushvalue_stack (st : LuaState) (i : Int) :
    (st.lua_pushvalue i).stack = st.stack ++ [(st.valueAtRaw i).getD LuaValue.nil] := rfl

@[simp] theorem lua_pushvalue_tables (st : LuaState) (i : Int) :
    (st.lua_pushvalue i).tables = st.tables := rfl

@[simp] theorem lua_pushvalue_uds (st : LuaState) (i : Int) :
    (st.lua_pushvalue i).uds = st.uds := rfl

@[simp] theorem lua_pushvalue_frames (st : LuaState) (i : Int) :
    (st.lua_pushvalue i).frames = st.frames := rfl

@[simp] theorem lua_pushvalue_upvalues (st : LuaState) (i : Int) :
    (st.lua_pushvalue i).upvalues = st.upvalues := rfl

@[simp] theorem lua_pushvalue_reg (st : LuaState) (i : Int) :
    (st.lua_pushvalue i).regTableId = st.regTableId := rfl

@[simp] theorem get_internal_registry_stack (st : LuaState) :
    st.get_internal_registry.stack = st.stack ++ [LuaValue.table st.regTableId] := rfl

@[simp] theorem get_internal_registry_tables (st : LuaState) :
    st.get_internal_registry.tables = st.tables := rfl

@[simp] theorem get_internal_registry_uds (st : LuaState) :
    st.get_internal_registry.uds = st.uds := rfl

@[simp] theorem get_internal_registry_frames (st : LuaState) :
    st.get_internal_registry.frames = st.frames := rfl

@[simp] theorem get_internal_registry_upvalues (st : LuaState) :
    st.get_internal_registry.upvalues = st.upvalues := rfl

@[simp] theorem get_internal_registry_reg (st : LuaState) :
    st.get_internal_registry.regTableId = st.regTableId := rfl

@[simp] theorem lua_getfield_stack (st : LuaState) (i : Int) (k : String) :
    (st.lua_getfield i k).stack =
      st.stack ++ [st.rawLookup ((st.valueAtRaw i).getD LuaValue.nil) (TKey.kstr k)] := rfl

@[simp] theorem lua_getfield_tables (st : LuaState) (i : Int) (k : String) :
    (st.lua_getfield i k).tables = st.tables := rfl

@[simp] theorem lua_getfield_uds (st : LuaState) (i : Int) (k : String) :
    (st.lua_getfield i k).uds = st.uds := rfl

@[simp] theorem lua_getfield_frames (st : LuaState) (i : Int) (k : String) :
    (st.lua_getfield i k).frames = st.frames := rfl

@[simp] theorem lua_getfield_upvalues (st : LuaState) (i : Int) (k : String) :
    (st.lua_getfield i k).upvalues = st.upvalues := rfl

@[simp] theorem lua_getfield_reg (st : LuaState) (i : Int) (k : String) :
    (st.lua_getfield i k).regTableId = st.regTableId := rfl

@[simp] theorem lua_rawgeti_stack (st : LuaState) (i n : Int) :
    (st.lua_rawgeti i n).stack =
      st.stack ++ [st.rawLookup ((st.valueAtRaw i).getD LuaValue.nil) (TKey.kint n)] := rfl

@[simp] theorem lua_rawgeti_tables (st : LuaState) (i n : Int) :
    (st.lua_rawgeti i n).tables = st.tables := rfl

@[simp] theorem lua_rawgeti_uds (st : LuaState) (i n : Int) :
    (st.lua_rawgeti i n).uds = st.uds := rfl

@[simp] theorem lua_rawgeti_frames (st : LuaState) (i n : Int) :
    (st.lua_rawgeti i n).frames = st.frames := rfl

@[simp] theorem lua_rawgeti_upvalues (st : LuaState) (i n : Int) :
    (st.lua_rawgeti i n).upvalues = st.upvalues := rfl

@[simp] theorem lua_rawgeti_reg (st : LuaState) (i n : Int) :
    (st.lua_rawgeti i n).regTableId = st.regTableId := rfl

@[simp] theorem get_field_stack (st : LuaState) (idx : LuaIndex) (k : String) :
    (st.get_field idx k).stack =
      st.stack ++ [st.rawLookup ((st.valueAt idx).getD LuaValue.nil) (TKey.kstr k)] := rfl

@[simp] theorem get_field_tables (st : LuaState) (idx : LuaIndex) (k : String) :
    (st.get_field idx k).tables = st.tables := rfl

@[simp] theorem get_field_uds (st : LuaState) (idx : LuaIndex) (k : String) :
    (st.get_field idx k).uds = st.uds := rfl

@[simp] theorem get_field_frames (st : LuaState) (idx : LuaIndex) (k : String) :
    (st.get_field idx k).frames = st.frames := rfl

@[simp] theorem get_field_upvalues (st : LuaState) (idx : LuaIndex) (k : String) :
    (st.get_field idx k).upvalues = st.upvalues := rfl

@[simp] theorem get_field_reg (st : LuaState) (idx : LuaIndex) (k : String) :
    (st.get_field idx k).regTableId = st.regTableId := rfl

@[simp] theorem lua_settop_stack (st : LuaState) (i : Int) :
    (st.lua_settop i).stack = stackSetTop st.stack i := rfl

@[simp] theorem lua_settop_tables (st : LuaState) (i : Int) :
    (st.lua_settop i).tables = st.tables := rfl

@[simp] theorem lua_settop_uds (st : LuaState) (i : Int) :
    (st.lua_settop i).uds = st.uds := rfl

@[simp] theorem lua_settop_frames (st : LuaState) (i : Int) :
    (st.lua_settop i).frames = st.frames := rfl

@[simp] theorem lua_settop_upvalues (st : LuaState) (i : Int) :
    (st.lua_settop i).upvalues = st.upvalues := rfl

@[simp] theorem lua_settop_reg (st : LuaState) (i : Int) :
    (st.lua_settop i).regTableId = st.regTableId := rfl

@[simp] theorem pop_stack (st : LuaState) (n : Nat) :
    (st.pop n).stack = stackSetTop st.stack (-(n : Int) - 1) := rfl

@[simp] theorem pop_tables (st : LuaState) (n : Nat) : (st.pop n).tables = st.tables := rfl

@[simp] theorem pop_uds (st : LuaState) (n : Nat) : (st.pop n).uds = st.uds := rfl

@[simp] theorem pop_frames (st : LuaState) (n : Nat) : (st.pop n).frames = st.frames := rfl

@[simp] theorem pop_upvalues (st : LuaState) (n : Nat) :
    (st.pop n).upvalues = st.upvalues := rfl

@[simp] theorem pop_reg (st : LuaState) (n : Nat) :
    (st.pop n).regTableId = st.regTableId := rfl

@[simp] theorem remove_stack (st : LuaState) (i : Int) :
    (st.remove i).stack = stackRemove st.stack i := rfl

@[simp] theorem remove_tables (st : LuaState) (i : Int) :
    (st.remove i).tables = st.tables := rfl

@[simp] theorem remove_uds (st : LuaState) (i : Int) : (st.remove i).uds = st.uds := rfl

@[simp] theorem remove_frames (st : LuaState) (i : Int) :
    (st.remove i).frames = st.frames := rfl

@[simp] theorem remove_upvalues (st : LuaState) (i : Int) :
    (st.remove i).upvalues = st.upvalues := rfl

@[simp] theorem remove_reg (st : LuaState) (i : Int) :
    (st.remove i).regTableId = st.regTableId := rfl

@[simp] theorem insert_stack (st : LuaState) (i : Int) :
    (st.insert i).stack = stackInsert st.stack i := rfl

@[simp] theorem insert_tables (st : LuaState) (i : Int) :
    (st.insert i).tables = st.tables := rfl

@[simp] theorem insert_uds (st : LuaState) (i : Int) : (st.insert i).uds = st.uds := rfl

@[simp] theorem insert_frames (st : LuaState) (i : Int) :
    (st.insert i).frames = st.frames := rfl

@[simp] theorem insert_upvalues (st : LuaState) (i : Int) :
    (st.insert i).upvalues = st.upvalues := rfl

@[simp] theorem insert_reg (st : LuaState) (i : Int) :
    (st.insert i).regTableId = st.regTableId := rfl

@[simp] theorem lua_newtable_stack (st : LuaState) :
    st.lua_newtable.stack = st.stack ++ [LuaValue.table st.tables.length] := rfl

@[simp] theorem lua_newtable_tables (st : LuaState) :
    st.lua_newtable.tables = st.tables ++ [[]] := rfl

@[simp] theorem lua_newtable_uds (st : LuaState) : st.lua_newtable.uds = st.uds := rfl

@[simp] theorem lua_newtable_frames (st : LuaState) :
    st.lua_newtable.frames = st.frames := rfl

@[simp] theorem lua_newtable_upvalues (st : LuaState) :
    st.lua_newtable.upvalues = st.upvalues := rfl

@[simp] theorem lua_newtable_reg (st : LuaState) :
    st.lua_newtable.regTableId = st.regTableId := rfl

@[simp] theorem setTableEntry_stack (st : LuaState) (id : Nat) (k : TKey) (v : LuaValue) :
    (st.setTableEntry id k v).stack = st.stack := rfl

@[simp] theorem setTableEntry_uds (st : LuaState) (id : Nat) (k : TKey) (v : LuaValue) :
    (st.setTableEntry id k v).uds = st.uds := rfl

@[simp] theorem setTableEntry_frames (st : LuaState) (id : Nat) (k : TKey) (v : LuaValue) :
    (st.setTableEntry id k v).frames = st.frames := rfl

@[simp] theorem setTableEntry_upvalues (st : LuaState) (id : Nat) (k : TKey) (v : LuaValue) :
    (st.setTableEntry id k v).upvalues = st.upvalues := rfl

@[simp] theorem setTableEntry_reg (st : LuaState) (id : Nat) (k : TKey) (v : LuaValue) :
    (st.setTableEntry id k v).regTableId = st.regTableId := rfl

@[simp] theorem setTableEntry_tables (st : LuaState) (id : Nat) (k : TKey) (v : LuaValue) :
    (st.setTableEntry id k v).tables =
      st.tables.set id (setEntryT ((st.tables.get? id).getD []) k v) := rfl

@[simp] theorem rawWrite_stack (st : LuaState) (t : LuaValue) (k : TKey) (v : LuaValue) :
    (st.rawWrite t k v).stack = st.stack := by
  cases t <;> rfl

@[simp] theorem rawWrite_uds (st : LuaState) (t : LuaValue) (k : TKey) (v : LuaValue) :
    (st.rawWrite t k v).uds = st.uds := by
  cases t <;> rfl

@[simp] theorem rawWrite_frames (st : LuaState) (t : LuaValue) (k : TKey) (v : LuaValue) :
    (st.rawWrite t k v).frames = st.frames := by
  cases t <;> rfl

@[simp] theorem rawWrite_upvalues (st : LuaState) (t : LuaValue) (k : TKey) (v : LuaValue) :
    (st.rawWrite t k v).upvalues = st.upvalues := by
  cases t <;> rfl

@[simp] theorem rawWrite_reg (st : LuaState) (t : LuaValue) (k : TKey) (v : LuaValue) :
    (st.rawWrite t k v).regTableId = st.regTableId := by
  cases t <;> rfl

@[simp] theorem lua_setfield_stack (st : LuaState) (i : Int) (k : String) :
    (st.lua_setfield i k).stack = st.stack.dropLast := by
  simp only [lua_setfield, rawWrite_stack]

@[simp] theorem lua_setfield_uds (st : LuaState) (i : Int) (k : String) :
    (st.lua_setfield i k).uds = st.uds := by
  simp only [lua_setfield, rawWrite_uds]

@[simp] theorem lua_setfield_frames (st : LuaState) (i : Int) (k : String) :
    (st.lua_setfield i k).frames = st.frames := by
  simp only [lua_setfield, rawWrite_frames]

@[simp] theorem lua_setfield_upvalues (st : LuaState) (i : Int) (k : String) :
    (st.lua_setfield i k).upvalues = st.upvalues := by
  simp only [lua_setfield, rawWrite_upvalues]

@[simp] theorem lua_setfield_reg (st : LuaState) (i : Int) (k : String) :
    (st.lua_setfield i k).regTableId = st.regTableId := by
  simp only [lua_setfield, rawWrite_reg]

@[simp] theorem lua_rawseti_stack (st : LuaState) (i n : Int) :
    (st.lua_rawseti i n).stack = st.stack.dropLast := by
  simp only [lua_rawseti, rawWrite_stack]

@[simp] theorem lua_rawseti_uds (st : LuaState) (i n : Int) :
    (st.lua_rawseti i n).uds = st.uds := by
  simp only [lua_rawseti, rawWrite_uds]

@[simp] theorem lua_rawseti_frames (st : LuaState) (i n : Int) :
    (st.lua_rawseti i n).frames = st.frames := by
  simp only [lua_rawseti, rawWrite_frames]

@[simp] theorem lua_rawseti_upvalues (st : LuaState) (i n : Int) :
    (st.lua_rawseti i n).upvalues = st.upvalues := by
  simp only [lua_rawseti, rawWrite_upvalues]

@[simp] theorem lua_rawseti_reg (st : LuaState) (i n : Int) :
    (st.lua_rawseti i n).regTableId = st.regTableId := by
  simp only [lua_rawseti, rawWrite_reg]

@[simp] theorem raw_set_stack (st : LuaState) (idx : LuaIndex) :
    (st.raw_set idx).stack = st.stack.dropLast.dropLast := by
  unfold raw_set
  rcases h : keyOfValue (st.stack.dropLast.getLast?.getD LuaValue.nil) with _ | key <;>
    simp [h]

@[simp] theorem raw_set_uds (st : LuaState) (idx : LuaIndex) :
    (st.raw_set idx).uds = st.uds := by
  unfold raw_set
  rcases h : keyOfValue (st.stack.dropLast.getLast?.getD LuaValue.nil) with _ | key <;>
    simp [h]

@[simp] theorem raw_set_frames (st : LuaState) (idx : LuaIndex) :
    (st.raw_set idx).frames = st.frames := by
  unfold raw_set
  rcases h : keyOfValue (st.stack.dropLast.getLast?.getD LuaValue.nil) with _ | key <;>
    simp [h]

@[simp] theorem raw_set_upvalues (st : LuaState) (idx : LuaIndex) :
    (st.raw_set idx).upvalues = st.upvalues := by
  unfold raw_set
  rcases h : keyOfValue (st.stack.dropLast.getLast?.getD LuaValue.nil) with _ | key <;>
    simp [h]

@[simp] theorem raw_set_reg (st : LuaState) (idx : LuaIndex) :
    (st.raw_set idx).regTableId = st.regTableId := by
  unfold raw_set
  rcases h : keyOfValue (st.stack.dropLast.getLast?.getD LuaValue.nil) with _ | key <;>
    simp [h]

@[simp] theorem raw_get_stack (st : LuaState) (idx : LuaIndex) :
    (st.raw_get idx).stack = st.stack.dropLast ++
      [match keyOfValue (st.stack.getLast?.getD LuaValue.nil) with
        | some k =>
            LuaState.rawLookup { st with stack := st.stack.dropLast }
              ((st.valueAt idx).getD LuaValue.nil) k
        | none => LuaValue.nil] := rfl

@[simp] theorem raw_get_tables (st : LuaState) (idx : LuaIndex) :
    (st.raw_get idx).tables = st.tables := rfl

@[simp] theorem raw_get_uds (st : LuaState) (idx : LuaIndex) :
    (st.raw_get idx).uds = st.uds := rfl

@[simp] theorem raw_get_frames (st : LuaState) (idx : LuaIndex) :
    (st.raw_get idx).frames = st.frames := rfl

@[simp] theorem raw_get_upvalues (st : LuaState) (idx : LuaIndex) :
    (st.raw_get idx).upvalues = st.upvalues := rfl

@[simp] theorem raw_get_reg (st : LuaState) (idx : LuaIndex) :
    (st.raw_get idx).regTableId = st.regTableId := rfl

@[simp] theorem setMetatableOf_stack (st : LuaState) (target mtv : LuaValue) :
    (st.setMetatableOf target mtv).stack = st.stack := by
  cases target <;> cases mtv <;> rfl

@[simp] theorem setMetatableOf_tables (st : LuaState) (target mtv : LuaValue) :
    (st.setMetatableOf target mtv).tables = st.tables := by
  cases target <;> cases mtv <;> rfl

@[simp] theorem setMetatableOf_frames (st : LuaState) (target mtv : LuaValue) :
    (st.setMetatableOf target mtv).frames = st.frames := by
  cases target <;> cases mtv <;> rfl

@[simp] theorem setMetatableOf_upvalues (st : LuaState) (target mtv : LuaValue) :
    (st.setMetatableOf target mtv).upvalues = st.upvalues := by
  cases target <;> cases mtv <;> rfl

@[simp] theorem setMetatableOf_reg (st : LuaState) (target mtv : LuaValue) :
    (st.setMetatableOf target mtv).regTableId = st.regTableId := by
  cases target <;> cases mtv <;> rfl

@[simp] theorem lua_setmetatable_stack (st : LuaState) (i : Int) :
    (st.lua_setmetatable i).stack = st.stack.dropLast := by
  simp only [lua_setmetatable, setMetatableOf_stack]

@[simp] theorem lua_setmetatable_tables (st : LuaState) (i : Int) :
    (st.lua_setmetatable i).tables = st.tables := by
  simp only [lua_setmetatable, setMetatableOf_tables]

@[simp] theorem lua_setmetatable_frames (st : LuaState) (i : Int) :
    (st.lua_setmetatable i).frames = st.frames := by
  simp only [lua_setmetatable, setMetatableOf_frames]

@[simp] theorem lua_setmetatable_upvalues (st : LuaState) (i : Int) :
    (st.lua_setmetatable i).upvalues = st.upvalues := by
  simp only [lua_setmetatable, setMetatableOf_upvalues]

@[simp] theorem lua_setmetatable_reg (st : LuaState) (i : Int) :
    (st.lua_setmetatable i).regTableId = st.regTableId := by
  simp only [lua_setmetatable, setMetatableOf_reg]

end LuaState

/-! Shape corollaries in the forms produced by the simp normal form of stacks. -/

theorem stackRemove_neg2a (l : List LuaValue) (x y : LuaValue) :
    stackRemove (l ++ [x, y]) (-2) = l ++ [y] := by
  have h := stackRemove_neg l x [y]
  norm_num at h
  exact h

theorem stackSetTop_neg2_app1 (l : List LuaValue) (a : LuaValue) :
    stackSetTop (l ++ [a]) (-2) = l := by
  have h := stackSetTop_cut l [a]
  norm_num at h
  exact h

theorem stackSetTop_neg2_app2 (l : List LuaValue) (a b : LuaValue) :
    stackSetTop (l ++ [a, b]) (-2) = l ++ [a] := by
  have h := stackSetTop_cut (l ++ [a]) [b]
  norm_num at h
  simpa using h

theorem stackSetTop_neg3_app2 (l : List LuaValue) (a b : LuaValue) :
    stackSetTop (l ++ [a, b]) (-3) = l := by
  have h := stackSetTop_cut l [a, b]
  norm_num at h
  exact h

theorem dropLast_app2 {α : Type} (l : List α) (a b : α) :
    (l ++ [a, b]).dropLast = l ++ [a] := by
  rw [show l ++ [a, b] = (l ++ [a]) ++ [b] by simp, List.dropLast_concat]

theorem dropLast_app3 {α : Type} (l : List α) (a b c : α) :
    (l ++ [a, b, c]).dropLast = l ++ [a, b] := by
  rw [show l ++ [a, b, c] = (l ++ [a, b]) ++ [c] by simp, List.dropLast_concat]

theorem exists_concat {α : Type} (l m : List α) (h1 : l.dropLast = m)
    (h2 : l.length = m.length + 1) : ∃ x, l = m ++ [x] := by
  have hne : l ≠ [] := by
    intro h
    rw [h] at h2
    simp at h2
  refine ⟨l.getLast hne, ?_⟩
  rw [← h1]
  exact (List.dropLast_append_getLast hne).symm

theorem set_len_app {α : Type} (l : List α) (x : α) (r : List α) (y : α) :
    (l ++ x :: r).set l.length y = l ++ y :: r := by
  induction l with
  | nil => simp
  | cons a l ih => simpa using ih

theorem modifyUd_app (l : List UserdataObj) (o : UserdataObj)
    (f : UserdataObj → UserdataObj) :
    LuaState.modifyUd (l ++ [o]) l.length f = l ++ [f o] := by
  unfold LuaState.modifyUd
  rw [show l ++ [o] = l ++ o :: [] from rfl, get_len_app]
  show (l ++ o :: []).set l.length (f o) = l ++ [f o]
  rw [set_len_app]

theorem drop_pred_app1 {α : Type} (l : List α) (x : α) :
    (l ++ [x]).drop ((l ++ [x]).length - 1) = [x] := by
  have h : (l ++ [x]).length - 1 = l.length := by simp
  rw [h, drop_len_app]

/-! The net effect of `get_metatable_of` and `push_userdata`. -/

theorem LuaState.get_metatable_of_dropLast (st : LuaState) (tag : TypeTag) :
    (st.get_metatable_of tag).stack.dropLast = st.stack := by
  simp only [LuaState.get_metatable_of]
  split
  · simp [stackRemove_neg2a, stackSetTop_neg2_app2, dropLast_app2, dropLast_app3]
  · simp [stackRemove_neg2a]

theorem LuaState.get_metatable_of_length (st : LuaState) (tag : TypeTag) :
    (st.get_metatable_of tag).stack.length = st.stack.length + 1 := by
  simp only [LuaState.get_metatable_of]
  split
  · simp [stackRemove_neg2a, stackSetTop_neg2_app2, dropLast_app2, dropLast_app3]
  · simp [stackRemove_neg2a]

theorem LuaState.get_metatable_of_stack_ex (st : LuaState) (tag : TypeTag) :
    ∃ mtv : LuaValue, (st.get_metatable_of tag).stack = st.stack ++ [mtv] :=
  exists_concat _ _ (st.get_metatable_of_dropLast tag) (st.get_metatable_of_length tag)

@[simp] theorem LuaState.get_metatable_of_uds (st : LuaState) (tag : TypeTag) :
    (st.get_metatable_of tag).uds = st.uds := by
  simp only [LuaState.get_metatable_of]
  split <;> simp

@[simp] theorem LuaState.get_metatable_of_frames (st : LuaState) (tag : TypeTag) :
    (st.get_metatable_of tag).frames = st.frames := by
  simp only [LuaState.get_metatable_of]
  split <;> simp

@[simp] theorem LuaState.get_metatable_of_upvalues (st : LuaState) (tag : TypeTag) :
    (st.get_metatable_of tag).upvalues = st.upvalues := by
  simp only [LuaState.get_metatable_of]
  split <;> simp

@[simp] theorem LuaState.get_metatable_of_reg (st : LuaState) (tag : TypeTag) :
    (st.get_metatable_of tag).regTableId = st.regTableId := by
  simp only [LuaState.get_metatable_of]
  split <;> simp

theorem LuaState.push_userdata_spec (st : LuaState) (tag : TypeTag) (v : UDValue) :
    (st.push_userdata tag v).stack = st.stack ++ [LuaValue.userdata st.uds.length] ∧
    (∃ m : Option Nat,
      (st.push_userdata tag v).uds = st.uds ++ [UserdataObj.mk (some tag) v m]) ∧
    (st.push_userdata tag v).frames = st.frames ∧
    (st.push_userdata tag v).upvalues = st.upvalues ∧
    (st.push_userdata tag v).regTableId = st.regTableId := by
  unfold LuaState.push_userdata
  set st1 : LuaState := { st with
    uds := st.uds ++ [UserdataObj.mk (some tag) v none],
    stack := st.stack ++ [LuaValue.userdata st.uds.length] } with hst1
  obtain ⟨mtv, hmtv⟩ := st1.get_metatable_of_stack_ex tag
  have hstk1 : st1.stack = st.stack ++ [LuaValue.userdata st.uds.length] := rfl
  have huds1 : st1.uds = st.uds ++ [UserdataObj.mk (some tag) v none] := rfl
  have htarget : (((st1.get_metatable_of tag).valueAtRaw (-2)).getD LuaValue.nil)
      = LuaValue.userdata st.uds.length := by
    rw [LuaState.valueAtRaw_neg2 _ st.stack (LuaValue.userdata st.uds.length) mtv
      (by rw [hmtv, hstk1]; simp)]
    rfl
  have hlast : ((st1.get_metatable_of tag).stack.getLast?.getD LuaValue.nil) = mtv := by
    rw [hmtv]
    simp
  simp only [LuaState.lua_setmetatable, htarget, hlast]
  rcases mtv with _ | b | n | s | id | c | vals | e | id <;>
    simp only [LuaState.setMetatableOf] <;>
    refine ⟨?_, ?_, ?_, ?_, ?_⟩ <;>
    simp [hmtv, hstk1, huds1, modifyUd_app]

/-! State equality from componentwise equality, and conversion bookkeeping. -/

theorem LuaState.ext' (a b : LuaState) (h1 : a.stack = b.stack) (h2 : a.tables = b.tables)
    (h3 : a.uds = b.uds) (h4 : a.regTableId = b.regTableId) (h5 : a.upvalues = b.upvalues)
    (h6 : a.frames = b.frames) (h7 : a.atpanicHook = b.atpanicHook) : a = b := by
  cases a
  cases b
  simp_all

@[simp] theorem LuaState.to_string_fst (st : LuaState) (idx : LuaIndex) :
    (st.to_string idx).1 = st := by
  unfold LuaState.to_string
  split
  · split <;> rfl
  · rfl

theorem LuaState.at_get_top {α : Type} (st : LuaState)
    (fl : LuaState → LuaIndex → LuaState × Except RunError α) (idx : LuaIndex) :
    (LuaState.«at» st fl idx).1.get_top = st.get_top := by
  simp only [LuaState.«at», LuaState.set_top]
  rw [if_neg (show ¬ ((st.get_top : Int) < 0) by omega)]
  show ((fl st idx).1.lua_settop ((st.get_top : Nat) : Int)).stack.length = st.stack.length
  rw [LuaState.lua_settop_stack, stackSetTop_len]
  rfl

theorem LuaState.at_fromLuaString (st : LuaState) (idx : LuaIndex) :
    LuaState.«at» st LuaState.fromLuaString idx = (st, (st.to_string idx).2) := by
  simp only [LuaState.«at», LuaState.set_top]
  rw [if_neg (show ¬ ((st.get_top : Int) < 0) by omega)]
  show ((LuaState.fromLuaString st idx).1.lua_settop ((st.get_top : Nat) : Int),
        (LuaState.fromLuaString st idx).2) = (st, (st.to_string idx).2)
  have h1 : (LuaState.fromLuaString st idx).1 = st := st.to_string_fst idx
  rw [h1]
  have h2 : st.lua_settop ((st.get_top : Nat) : Int) = st := by
    show ({ st with stack := stackSetTop st.stack ((st.stack.length : Nat) : Int) } :
      LuaState) = st
    rw [stackSetTop_self]
  rw [h2]
  rfl

theorem LuaState.valueAt_one (st : LuaState) (x : LuaValue) (r : List LuaValue)
    (h : st.stack = x :: r) : st.valueAt (LuaIndex.Stack 1) = some x := by
  show st.valueAtRaw 1 = some x
  have h0 := st.valueAtRaw_pos [] x r (by simpa using h)
  simpa using h0

/-! Behaviour of the error handler on its frame. -/

theorem errfunc_pass (st : LuaState) (e : LuaValue) (hstack : st.stack = [e])
    (htag : (st.is_userdata_of_type TypeTag.runErrorT (LuaIndex.Stack 1)
      || st.is_userdata_of_type TypeTag.panicT (LuaIndex.Stack 1)) = true) :
    errfunc st = (st, CallOut.ret [e]) := by
  unfold errfunc
  rw [if_pos htag, hstack]
  rfl

theorem errfunc_coerce (st : LuaState) (e : LuaValue) (hstack : st.stack = [e])
    (htag : (st.is_userdata_of_type TypeTag.runErrorT (LuaIndex.Stack 1)
      || st.is_userdata_of_type TypeTag.panicT (LuaIndex.Stack 1)) = false) :
    errfunc st = (st.push_userdata TypeTag.runErrorT
        (UDValue.runErr { message := (LuaState.toStringVal e).getD "unknown error",
                          backtrace := st.backtrace }),
      CallOut.ret [LuaValue.userdata st.uds.length]) := by
  unfold errfunc
  rw [if_neg (by simp [htag]), LuaState.at_fromLuaString]
  dsimp only
  have hval : st.valueAt (LuaIndex.Stack 1) = some e := st.valueAt_one e [] hstack
  have hmsg : (match (st.to_string (LuaIndex.Stack 1)).2 with
      | Except.ok val => val
      | Except.error _ => "unknown error") = (LuaState.toStringVal e).getD "unknown error" := by
    unfold LuaState.to_string
    rw [hval]
    rcases h2 : LuaState.toStringVal e with _ | s <;> simp [h2]
  rw [hmsg]
  obtain ⟨hstk, _, _, _, _⟩ := st.push_userdata_spec TypeTag.runErrorT
    (UDValue.runErr { message := (LuaState.toStringVal e).getD "unknown error",
                      backtrace := st.backtrace })
  rw [Prod.mk.injEq]
  refine ⟨rfl, ?_⟩
  rw [hstk, drop_pred_app1]

/-! The trampoline's three outcomes, and `callValue` on each callable kind. -/

theorem runTrampoline_err_spec (st : LuaState) (pushes : List LuaValue) (e : RunError) :
    ∃ (stT : LuaState) (m : Option Nat),
      runTrampoline st { pushes := pushes, outcome := HostOutcome.err e }
        = (stT, CallOut.raised (LuaValue.userdata st.uds.length)) ∧
      stT.uds = st.uds ++
        [UserdataObj.mk (some TypeTag.runErrorT) (UDValue.runErr e) m] ∧
      stT.frames = st.frames ∧ stT.upvalues = st.upvalues ∧
      stT.regTableId = st.regTableId := by
  unfold runTrampoline
  obtain ⟨hstk, ⟨m, huds⟩, hfr, hup, hreg⟩ :=
    LuaState.push_userdata_spec { st with stack := st.stack ++ pushes }
      TypeTag.runErrorT (UDValue.runErr e)
  refine ⟨_, m, ?_, by simpa using huds, by simpa using hfr, by simpa using hup,
    by simpa using hreg⟩
  rw [Prod.mk.injEq]
  refine ⟨rfl, ?_⟩
  rw [hstk]
  simp

theorem runTrampoline_panic_spec (st : LuaState) (pushes : List LuaValue) (p : Nat) :
    ∃ (stT : LuaState) (m : Option Nat),
      runTrampoline st { pushes := pushes, outcome := HostOutcome.panicked p }
        = (stT, CallOut.raised (LuaValue.userdata st.uds.length)) ∧
      stT.uds = st.uds ++
        [UserdataObj.mk (some TypeTag.panicT) (UDValue.panicPayload p) m] ∧
      stT.frames = st.frames ∧ stT.upvalues = st.upvalues ∧
      stT.regTableId = st.regTableId := by
  unfold runTrampoline
  obtain ⟨hstk, ⟨m, huds⟩, hfr, hup, hreg⟩ :=
    LuaState.push_userdata_spec { st with stack := st.stack ++ pushes }
      TypeTag.panicT (UDValue.panicPayload p)
  refine ⟨_, m, ?_, by simpa using huds, by simpa using hfr, by simpa using hup,
    by simpa using hreg⟩
  rw [Prod.mk.injEq]
  refine ⟨rfl, ?_⟩
  rw [hstk]
  simp

theorem runTrampoline_ok_spec (st : LuaState) (pushes : List LuaValue) (n : Nat) :
    runTrampoline st { pushes := pushes, outcome := HostOutcome.ok n }
      = ({ st with stack := st.stack ++ pushes },
         CallOut.ret ((st.stack ++ pushes).drop ((st.stack ++ pushes).length - n))) := rfl

@[simp] theorem callerView_stack (st stNew : LuaState) :
    (callerView st stNew).stack = st.stack := rfl

@[simp] theorem callerView_tables (st stNew : LuaState) :
    (callerView st stNew).tables = stNew.tables := rfl

@[simp] theorem callerView_uds (st stNew : LuaState) :
    (callerView st stNew).uds = stNew.uds := rfl

@[simp] theorem callerView_frames (st stNew : LuaState) :
    (callerView st stNew).frames = st.frames := rfl

@[simp] theorem callerView_upvalues (st stNew : LuaState) :
    (callerView st stNew).upvalues = st.upvalues := rfl

@[simp] theorem callerView_reg (st stNew : LuaState) :
    (callerView st stNew).regTableId = stNew.regTableId := rfl

@[simp] theorem frameState_stack (st : LuaState) (args ups : List LuaValue) :
    (frameState st args ups).stack = args := rfl

@[simp] theorem frameState_tables (st : LuaState) (args ups : List LuaValue) :
    (frameState st args ups).tables = st.tables := rfl

@[simp] theorem frameState_uds (st : LuaState) (args ups : List LuaValue) :
    (frameState st args ups).uds = st.uds := rfl

@[simp] theorem frameState_frames (st : LuaState) (args ups : List LuaValue) :
    (frameState st args ups).frames = cFrame :: st.frames := rfl

@[simp] theorem frameState_upvalues (st : LuaState) (args ups : List LuaValue) :
    (frameState st args ups).upvalues = ups := rfl

@[simp] theorem frameState_reg (st : LuaState) (args ups : List LuaValue) :
    (frameState st args ups).regTableId = st.regTableId := rfl

theorem callValue_trampoline (st : LuaState) (ups args : List LuaValue) (id : Nat)
    (o : UserdataObj) (f : HostFn)
    (hups : ups.head? = some (LuaValue.userdata id))
    (hud : st.uds.get? id = some o) (hval : o.val = UDValue.rawFn f) :
    callValue st (LuaValue.closure CFunc.trampoline ups) args =
      (callerView st (runTrampoline (frameState st args ups) f).1,
       (runTrampoline (frameState st args ups) f).2) := by
  show (match ups.head? with
    | some (LuaValue.userdata id) =>
        match st.uds.get? id with
        | some o =>
            match o.val with
            | UDValue.rawFn f =>
                let p := runTrampoline (frameState st args ups) f
                (callerView st p.1, p.2)
            | _ => (st, CallOut.raised (LuaValue.str ("ill-formed native closure")))
        | none => (st, CallOut.raised (LuaValue.str ("ill-formed native closure")))
    | _ => (st, CallOut.raised (LuaValue.str ("ill-formed native closure")))) = _
  rw [hups]
  show (match st.uds.get? id with
    | some o =>
        match o.val with
        | UDValue.rawFn f =>
            let p := runTrampoline (frameState st args ups) f
            (callerView st p.1, p.2)
        | _ => (st, CallOut.raised (LuaValue.str ("ill-formed native closure")))
    | none => (st, CallOut.raised (LuaValue.str ("ill-formed native closure")))) = _
  rw [hud]
  show (match o.val with
    | UDValue.rawFn f =>
        let p := runTrampoline (frameState st args ups) f
        (callerView st p.1, p.2)
    | _ => (st, CallOut.raised (LuaValue.str ("ill-formed native closure")))) = _
  rw [hval]

theorem callValue_errfuncC (st : LuaState) (args ups : List LuaValue) :
    callValue st (LuaValue.closure CFunc.errfuncC ups) args =
      (callerView st (errfunc (frameState st args ups)).1,
       (errfunc (frameState st args ups)).2) := rfl

theorem callValue_chunkReturns (st : LuaState) (vals args : List LuaValue) :
    callValue st (LuaValue.chunkReturns vals) args = (st, CallOut.ret vals) := rfl

theorem callValue_chunkRaises (st : LuaState) (e : LuaValue) (args : List LuaValue) :
    callValue st (LuaValue.chunkRaises e) args = (st, CallOut.raised e) := rfl

/-! Userdata bookkeeping and tag checks. -/

theorem modifyUd_get_self (uds : List UserdataObj) (E : Nat) (o : UserdataObj)
    (f : UserdataObj → UserdataObj) (h : uds.get? E = some o) :
    (LuaState.modifyUd uds E f).get? E = some (f o) := by
  unfold LuaState.modifyUd
  rw [h]
  show (uds.set E (f o)).get? E = some (f o)
  obtain ⟨hlt, -⟩ := List.get?_eq_some.mp h
  exact List.get?_set_eq_of_lt _ hlt

theorem LuaState.pop_stack_app (st : LuaState) (l r : List LuaValue)
    (h : st.stack = l ++ r) : (st.pop r.length).stack = l := by
  rw [LuaState.pop_stack, h]
  exact stackSetTop_cut l r

theorem LuaState.is_userdata_of_type_eq (st : LuaState) (tag : TypeTag) (idx : LuaIndex)
    (E : Nat) (o : UserdataObj)
    (hval : st.valueAt idx = some (LuaValue.userdata E)) (hud : st.uds.get? E = some o) :
    st.is_userdata_of_type tag idx = decide (o.tag = some tag) := by
  unfold is_userdata_of_type
  rw [hval]
  show (match st.uds.get? E with
    | some o => decide (o.tag = some tag)
    | none => false) = decide (o.tag = some tag)
  rw [hud]

theorem LuaState.is_userdata_of_type_false (st : LuaState) (tag : TypeTag)
    (idx : LuaIndex) (v : LuaValue) (hval : st.valueAt idx = some v)
    (hv : ∀ id, v ≠ LuaValue.userdata id) :
    st.is_userdata_of_type tag idx = false := by
  unfold is_userdata_of_type
  rw [hval]
  rcases v <;> first | rfl | exact absurd rfl (hv _)

/-! The handler invoked through `callValue`: pass-through and coercion. -/

theorem callValue_errfunc_pass (stA : LuaState) (E : Nat) (o : UserdataObj)
    (hud : stA.uds.get? E = some o)
    (htag : o.tag = some TypeTag.runErrorT ∨ o.tag = some TypeTag.panicT) :
    callValue stA (LuaValue.closure CFunc.errfuncC []) [LuaValue.userdata E]
      = (stA, CallOut.ret [LuaValue.userdata E]) := by
  rw [callValue_errfuncC]
  have hvalE : (frameState stA [LuaValue.userdata E] []).valueAt (LuaIndex.Stack 1)
      = some (LuaValue.userdata E) :=
    LuaState.valueAt_one _ _ [] rfl
  have hudE : (frameState stA [LuaValue.userdata E] []).uds.get? E = some o := by
    simpa using hud
  have hpass : errfunc (frameState stA [LuaValue.userdata E] [])
      = (frameState stA [LuaValue.userdata E] [], CallOut.ret [LuaValue.userdata E]) := by
    apply errfunc_pass _ _ rfl
    rw [LuaState.is_userdata_of_type_eq _ TypeTag.runErrorT _ E o hvalE hudE,
        LuaState.is_userdata_of_type_eq _ TypeTag.panicT _ E o hvalE hudE]
    rcases htag with h | h <;> simp [h]
  rw [hpass]
  have hback : callerView stA (frameState stA [LuaValue.userdata E] []) = stA := by
    apply LuaState.ext' <;> rfl
  rw [hback]

set_option maxHeartbeats 1000000 in
theorem callValue_errfunc_str (stA : LuaState) (m : String) :
    ∃ (mt : Option Nat) (stB : LuaState),
      callValue stA (LuaValue.closure CFunc.errfuncC []) [LuaValue.str m]
        = (stB, CallOut.ret [LuaValue.userdata stA.uds.length]) ∧
      stB.stack = stA.stack ∧ stB.upvalues = stA.upvalues ∧ stB.frames = stA.frames ∧
      stB.regTableId = stA.regTableId ∧
      stB.uds = stA.uds ++ [UserdataObj.mk (some TypeTag.runErrorT)
        (UDValue.runErr (RunError.mk m ((cFrame :: stA.frames).map formatFrame))) mt] := by
  rw [callValue_errfuncC]
  have hvalm : (frameState stA [LuaValue.str m] []).valueAt (LuaIndex.Stack 1)
      = some (LuaValue.str m) :=
    LuaState.valueAt_one _ _ [] rfl
  have hcoerce := errfunc_coerce (frameState stA [LuaValue.str m] []) (LuaValue.str m) rfl
    (by
      rw [LuaState.is_userdata_of_type_false _ TypeTag.runErrorT _ _ hvalm (by intro id h; cases h),
          LuaState.is_userdata_of_type_false _ TypeTag.panicT _ _ hvalm (by intro id h; cases h)]
      rfl)
  rw [hcoerce]
  obtain ⟨hstk, ⟨mt, huds⟩, hfr, hup, hreg⟩ :=
    LuaState.push_userdata_spec (frameState stA [LuaValue.str m] []) TypeTag.runErrorT
      (UDValue.runErr { message := (LuaState.toStringVal (LuaValue.str m)).getD "unknown error",
                        backtrace := (frameState stA [LuaValue.str m] []).backtrace })
  refine ⟨mt, _, rfl, ?_, ?_, ?_, ?_, ?_⟩
  · exact callerView_stack stA _
  · exact callerView_upvalues stA _
  · exact callerView_frames stA _
  · rw [callerView_reg, hreg]
    rfl
  · rw [callerView_uds, huds]
    rfl

/-! The protected-call wrapper: setup phase and error-translation phase. -/

@[simp] theorem LuaIndex.to_stack_stack (i : Int) : (LuaIndex.Stack i).to_stack = i := rfl

theorem LuaState.abs_index_neg (st : LuaState) (i : Int)
    (hi : ¬ (0 < i ∨ i ≤ LUA_REGISTRYINDEX)) :
    st.abs_index (LuaIndex.Stack i) = LuaIndex.Stack ((st.get_top : Int) + i + 1) := by
  show (if 0 < i ∨ i ≤ LUA_REGISTRYINDEX then LuaIndex.Stack i
    else LuaIndex.Stack ((st.get_top : Int) + i + 1)) = _
  rw [if_neg hi]

theorem LuaState.call_setup_spec (st : LuaState) (S args : List LuaValue)
    (fv efv : LuaValue) (hreg : st.regLookup ("errfunc") = some efv)
    (hstack : st.stack = S ++ fv :: args) (hn : args.length < 1000000) :
    st.call_setup args.length
      = ({ st with stack := S ++ efv :: fv :: args }, (S.length : Int) + 1) := by
  obtain ⟨regT, hregT, hlk⟩ : ∃ t, st.tables.get? st.regTableId = some t ∧
      lookupT t (TKey.kstr ("errfunc")) = some efv := by
    unfold regLookup at hreg
    exact Option.bind_eq_some.mp hreg
  have h1stack : st.get_internal_registry.stack
      = (S ++ fv :: args) ++ [LuaValue.table st.regTableId] := by
    rw [get_internal_registry_stack, hstack]
  have h1v : (st.get_internal_registry.valueAt (LuaIndex.Stack (-1))).getD LuaValue.nil
      = LuaValue.table st.regTableId := by
    show (st.get_internal_registry.valueAtRaw (-1)).getD LuaValue.nil = _
    rw [LuaState.valueAtRaw_neg1 _ _ _ h1stack]
    rfl
  have hlook : st.get_internal_registry.rawLookup (LuaValue.table st.regTableId)
      (TKey.kstr ("errfunc")) = efv := by
    show (lookupT ((st.get_internal_registry.tables.get? st.regTableId).getD [])
      (TKey.kstr ("errfunc"))).getD LuaValue.nil = efv
    rw [get_internal_registry_tables, hregT]
    show (lookupT regT (TKey.kstr ("errfunc"))).getD LuaValue.nil = efv
    rw [hlk]
    rfl
  have h2 : (st.get_internal_registry.get_field (LuaIndex.Stack (-1)) ("errfunc")).stack
      = (S ++ fv :: args) ++ [LuaValue.table st.regTableId, efv] := by
    rw [get_field_stack, h1v, hlook, h1stack]
    simp
  have h3 : ((st.get_internal_registry.get_field (LuaIndex.Stack (-1))
      ("errfunc")).remove (-2)).stack = (S ++ fv :: args) ++ [efv] := by
    rw [remove_stack, h2, stackRemove_neg2a]
  have hlen3 : ((st.get_internal_registry.get_field (LuaIndex.Stack (-1))
      ("errfunc")).remove (-2)).get_top = S.length + args.length + 2 := by
    show ((st.get_internal_registry.get_field (LuaIndex.Stack (-1))
      ("errfunc")).remove (-2)).stack.length = _
    rw [h3]
    simp
    omega
  have hcond : ¬ (0 < (-(args.length : Int) - 2) ∨
      (-(args.length : Int) - 2) ≤ LUA_REGISTRYINDEX) := by
    simp only [LUA_REGISTRYINDEX]
    push_cast
    omega
  have hefi : (((st.get_internal_registry.get_field (LuaIndex.Stack (-1))
        ("errfunc")).remove (-2)).abs_index
        (LuaIndex.Stack (-(args.length : Int) - 2))).to_stack = (S.length : Int) + 1 := by
    rw [LuaState.abs_index_neg _ _ hcond, LuaIndex.to_stack_stack, hlen3]
    push_cast
    omega
  unfold call_setup
  rw [Prod.mk.injEq]
  refine ⟨?_, hefi⟩
  rw [hefi]
  apply LuaState.ext' <;> try rfl
  rw [insert_stack, h3]
  exact stackInsert_at S (fv :: args) efv

theorem LuaState.userdata_move_spec (st6 : LuaState) (S : List LuaValue) (E : Nat)
    (o : UserdataObj) (tag : TypeTag)
    (hstack : st6.stack = S ++ [LuaValue.userdata E])
    (hud : st6.uds.get? E = some o) (htag : o.tag = some tag) :
    ∃ st2 : LuaState,
      st6.userdata_move tag (LuaIndex.Stack (-1)) = (st2, Except.ok o.val) ∧
      st2.stack = S ++ [LuaValue.userdata E] := by
  have hgt : st6.get_top = S.length + 1 := by
    show st6.stack.length = _
    rw [hstack]
    simp
  have haidx : st6.abs_index (LuaIndex.Stack (-1))
      = LuaIndex.Stack ((S.length : Int) + 1) := by
    rw [LuaState.abs_index_neg _ _ (by norm_num [LUA_REGISTRYINDEX]), hgt]
    congr 1
    push_cast
    omega
  have h1stack : st6.push_nil.stack = S ++ LuaValue.userdata E :: [LuaValue.nil] := by
    rw [push_nil_stack, hstack]
    simp
  have htarget : (st6.push_nil.valueAtRaw ((S.length : Int) + 1)).getD LuaValue.nil
      = LuaValue.userdata E := by
    rw [st6.push_nil.valueAtRaw_pos S _ [LuaValue.nil] h1stack]
    rfl
  have hmtv : st6.push_nil.stack.getLast?.getD LuaValue.nil = LuaValue.nil := by
    rw [h1stack, show S ++ LuaValue.userdata E :: [LuaValue.nil]
      = (S ++ [LuaValue.userdata E]) ++ [LuaValue.nil] by simp, List.getLast?_concat]
    rfl
  have h2stack : st6.push_nil.stack.dropLast = S ++ [LuaValue.userdata E] := by
    rw [h1stack]
    exact dropLast_app2 S _ _
  simp only [userdata_move]
  rw [haidx, LuaIndex.to_stack_stack]
  simp only [lua_setmetatable]
  rw [htarget, hmtv]
  simp only [setMetatableOf]
  set stDrop : LuaState := { st6.push_nil with stack := st6.push_nil.stack.dropLast }
    with hstDrop
  set st2 : LuaState :=
    { stDrop with uds := LuaState.modifyUd stDrop.uds E (fun o => { o with mt := none }) }
    with hst2
  have hst2stack : st2.stack = S ++ [LuaValue.userdata E] := h2stack
  have hv2 : st2.valueAt (LuaIndex.Stack ((S.length : Int) + 1))
      = some (LuaValue.userdata E) := by
    show st2.valueAtRaw ((S.length : Int) + 1) = _
    exact st2.valueAtRaw_pos S _ [] (by rw [hst2stack])
  have hud2 : st2.uds.get? E = some (UserdataObj.mk o.tag o.val none) := by
    show (LuaState.modifyUd st6.uds E (fun o => { o with mt := none })).get? E = _
    rw [modifyUd_get_self st6.uds E o _ hud]
  have hua : st2.userdata_at tag (LuaIndex.Stack ((S.length : Int) + 1))
      = Except.ok o.val := by
    unfold userdata_at
    rw [hv2]
    show (match st2.uds.get? E with
      | some o =>
          if o.tag = some tag then Except.ok o.val
          else Except.error (RunError.conversion_from_lua (some LuaType.Userdata)
            (typeNameOf tag) st2.backtrace)
      | none => Except.error (RunError.conversion_from_lua (some LuaType.Userdata)
          (typeNameOf tag) st2.backtrace)) = Except.ok o.val
    rw [hud2]
    show (if o.tag = some tag then Except.ok o.val
      else Except.error (RunError.conversion_from_lua (some LuaType.Userdata)
        (typeNameOf tag) st2.backtrace)) = Except.ok o.val
    rw [if_pos htag]
  exact ⟨st2, by rw [hua], hst2stack⟩

theorem LuaState.run_result_err (st6 : LuaState) (S : List LuaValue) (E : Nat)
    (o : UserdataObj) (e : RunError)
    (hstack : st6.stack = S ++ [LuaValue.userdata E])
    (hud : st6.uds.get? E = some o)
    (htag : o.tag = some TypeTag.runErrorT) (hval : o.val = UDValue.runErr e) :
    ∃ st7 : LuaState,
      st6.lua_to_rust_run_result LUA_ERRRUN = (st7, RunOutcome.err e) ∧
      st7.stack = S := by
  have hv : st6.valueAt (LuaIndex.Stack (-1)) = some (LuaValue.userdata E) := by
    show st6.valueAtRaw (-1) = _
    exact st6.valueAtRaw_neg1 S _ hstack
  have hbool : st6.is_userdata_of_type TypeTag.runErrorT (LuaIndex.Stack (-1)) = true := by
    rw [st6.is_userdata_of_type_eq TypeTag.runErrorT _ E o hv hud]
    simp [htag]
  obtain ⟨st2, hmv, hst2stack⟩ :=
    st6.userdata_move_spec S E o TypeTag.runErrorT hstack hud htag
  simp only [lua_to_rust_run_result, LUA_ERRRUN, LUA_OK, LUA_ERRGCMM, LUA_ERRMEM,
    LUA_ERRERR, hbool]
  norm_num
  rw [hmv]
  dsimp only
  rw [hval]
  exact ⟨st2.pop 1, rfl, st2.pop_stack_app S [LuaValue.userdata E] hst2stack⟩

theorem LuaState.run_result_panic (st6 : LuaState) (S : List LuaValue) (E : Nat)
    (o : UserdataObj) (p : Nat)
    (hstack : st6.stack = S ++ [LuaValue.userdata E])
    (hud : st6.uds.get? E = some o)
    (htag : o.tag = some TypeTag.panicT) (hval : o.val = UDValue.panicPayload p) :
    ∃ st7 : LuaState,
      st6.lua_to_rust_run_result LUA_ERRRUN = (st7, RunOutcome.hostPanic p) ∧
      st7.stack = S := by
  have hv : st6.valueAt (LuaIndex.Stack (-1)) = some (LuaValue.userdata E) := by
    show st6.valueAtRaw (-1) = _
    exact st6.valueAtRaw_neg1 S _ hstack
  have hbool1 : st6.is_userdata_of_type TypeTag.runErrorT (LuaIndex.Stack (-1)) = false := by
    rw [st6.is_userdata_of_type_eq TypeTag.runErrorT _ E o hv hud]
    simp [htag]
  have hbool2 : st6.is_userdata_of_type TypeTag.panicT (LuaIndex.Stack (-1)) = true := by
    rw [st6.is_userdata_of_type_eq TypeTag.panicT _ E o hv hud]
    simp [htag]
  obtain ⟨st2, hmv, hst2stack⟩ :=
    st6.userdata_move_spec S E o TypeTag.panicT hstack hud htag
  simp only [lua_to_rust_run_result, LUA_ERRRUN, LUA_OK, LUA_ERRGCMM, LUA_ERRMEM,
    LUA_ERRERR, hbool1, hbool2]
  norm_num
  rw [hmv]
  dsimp only
  rw [hval]
  exact ⟨st2.pop 1, rfl, st2.pop_stack_app S [LuaValue.userdata E] hst2stack⟩

theorem LuaState.run_result_ok (st : LuaState) :
    st.lua_to_rust_run_result LUA_OK = (st, RunOutcome.ok) := rfl

/-! Decomposition of `lua_pcall` over a located frame. -/

@[simp] theorem callValue_fst_stack (st : LuaState) (fv : LuaValue)
    (args : List LuaValue) : (callValue st fv args).1.stack = st.stack := by
  unfold callValue
  repeat' split
  all_goals rfl

theorem lua_pcall_decomp (st : LuaState) (S args : List LuaValue) (efv fv : LuaValue)
    (nres : Option Nat) (hstack : st.stack = S ++ efv :: fv :: args) :
    lua_pcall st args.length nres ((S.length : Int) + 1)
      = lua_pcall_framed st S args efv fv nres := by
  have hreshape : st.stack = (S ++ [efv]) ++ fv :: args := by
    rw [hstack]
    simp
  have hidx : st.stack.length - args.length - 1 = (S ++ [efv]).length := by
    rw [hreshape]
    simp
    omega
  have hfv : (st.stack.get? (st.stack.length - args.length - 1)).getD LuaValue.nil
      = fv := by
    rw [hidx, hreshape, get_len_app]
    rfl
  have hargs : st.stack.drop (st.stack.length - args.length) = args := by
    have h1 : st.stack.length - args.length = (S ++ [efv]).length + 1 := by
      rw [hreshape]
      simp
      omega
    rw [h1, hreshape]
    exact drop_len_succ_app (S ++ [efv]) fv args
  have hbase : st.stack.take (st.stack.length - args.length - 1) = S ++ [efv] := by
    rw [hidx, hreshape, take_len_app]
  simp only [lua_pcall, lua_pcall_framed, hfv, hargs, hbase]

theorem LuaState.push_closure_zero (st : LuaState) (f : HostFn) :
    st.push_closure f 0 = { st with
      uds := st.uds ++ [UserdataObj.mk none (UDValue.rawFn f) none],
      stack := st.stack ++ [LuaValue.closure CFunc.trampoline
        [LuaValue.userdata st.uds.length]] } := by
  simp only [push_closure]
  rw [if_neg (by omega)]
  apply LuaState.ext' <;> try rfl
  show (st.stack ++ [LuaValue.userdata st.uds.length]).take
        ((st.stack ++ [LuaValue.userdata st.uds.length]).length - (0 + 1))
      ++ [LuaValue.closure CFunc.trampoline
          ((st.stack ++ [LuaValue.userdata st.uds.length]).drop
            ((st.stack ++ [LuaValue.userdata st.uds.length]).length - (0 + 1)))]
    = st.stack ++ [LuaValue.closure CFunc.trampoline [LuaValue.userdata st.uds.length]]
  have h1 : (st.stack ++ [LuaValue.userdata st.uds.length]).length - (0 + 1)
      = st.stack.length := by
    simp
  rw [h1, take_len_app, drop_len_app]

theorem LuaState.push_function_zero (st : LuaState) (f : HostFn) :
    st.push_function f = { st with
      uds := st.uds ++ [UserdataObj.mk none (UDValue.rawFn f) none],
      stack := st.stack ++ [LuaValue.closure CFunc.trampoline
        [LuaValue.userdata st.uds.length]] } :=
  st.push_closure_zero f

theorem get_succ_app2 {α : Type} (l : List α) (a b : α) :
    (l ++ [a, b]).get? (l.length + 1) = some b := by
  have h := get_len_app (l ++ [a]) b []
  simpa using h

theorem LuaState.call_decomp (st : LuaState) (S args : List LuaValue) (fv : LuaValue)
    (results : LuaCallResults)
    (hreg : st.regLookup ("errfunc") = some (LuaValue.closure CFunc.errfuncC []))
    (hstack : st.stack = S ++ fv :: args) (hn : args.length < 1000000) :
    st.call args.length results =
      call_framed st S args (LuaValue.closure CFunc.errfuncC []) fv
        (match results with
          | LuaCallResults.Num k => some k
          | LuaCallResults.MultRet => none) := by
  simp only [call_framed]
  simp only [call]
  rw [st.call_setup_spec S args fv _ hreg hstack hn]
  dsimp only
  rw [lua_pcall_decomp _ S args _ fv _ rfl]

theorem lua_pcall_framed_raised_ret (st : LuaState) (S args : List LuaValue)
    (efv fv ev hval1 : LuaValue) (stT stH : LuaState) (hvals : List LuaValue)
    (nres : Option Nat)
    (hp : callValue { st with stack := S ++ [efv] } fv args = (stT, CallOut.raised ev))
    (hhv : (stT.valueAtRaw ((S.length : Int) + 1)).getD LuaValue.nil = hval1)
    (hq : callValue stT hval1 [ev] = (stH, CallOut.ret hvals)) :
    lua_pcall_framed st S args efv fv nres
      = ({ stH with stack := (S ++ [efv]) ++ [hvals.headD LuaValue.nil] }, LUA_ERRRUN) := by
  simp only [lua_pcall_framed, hp, hhv, hq]

theorem callValue_hostfn_err (stA : LuaState) (N : Nat) (o : UserdataObj)
    (pushes : List LuaValue) (e : RunError)
    (hud : stA.uds.get? N = some o)
    (hval : o.val = UDValue.rawFn (HostFn.mk pushes (HostOutcome.err e))) :
    ∃ (stT : LuaState) (m : Option Nat),
      callValue stA (LuaValue.closure CFunc.trampoline [LuaValue.userdata N]) []
        = (callerView stA stT, CallOut.raised (LuaValue.userdata stA.uds.length)) ∧
      stT.uds = stA.uds ++
        [UserdataObj.mk (some TypeTag.runErrorT) (UDValue.runErr e) m] := by
  obtain ⟨stT, m, hT, hTuds, _, _, _⟩ :=
    runTrampoline_err_spec (frameState stA [] [LuaValue.userdata N]) pushes e
  refine ⟨stT, m, ?_, by simpa using hTuds⟩
  rw [callValue_trampoline stA [LuaValue.userdata N] [] N o _ rfl hud hval, hT]
  simp

theorem call_framed_err (st : LuaState) (S args : List LuaValue) (fv : LuaValue)
    (stA : LuaState) (E : Nat) (o : UserdataObj) (e : RunError) (nres : Option Nat)
    (hp : callValue { st with stack := S ++ [LuaValue.closure CFunc.errfuncC []] } fv args
        = (stA, CallOut.raised (LuaValue.userdata E)))
    (hAstack : stA.stack = S ++ [LuaValue.closure CFunc.errfuncC []])
    (hud : stA.uds.get? E = some o)
    (htag : o.tag = some TypeTag.runErrorT) (hvalo : o.val = UDValue.runErr e) :
    ∃ st7 : LuaState,
      call_framed st S args (LuaValue.closure CFunc.errfuncC []) fv nres
        = (st7, RunOutcome.err e) ∧ st7.stack = S := by
  have hhv : (stA.valueAtRaw ((S.length : Int) + 1)).getD LuaValue.nil
      = LuaValue.closure CFunc.errfuncC [] := by
    rw [stA.valueAtRaw_pos S _ [] hAstack]
    rfl
  have hq := callValue_errfunc_pass stA E o hud (Or.inl htag)
  have hpc := lua_pcall_framed_raised_ret
    { st with stack := S ++ LuaValue.closure CFunc.errfuncC [] :: fv :: args }
    S args (LuaValue.closure CFunc.errfuncC []) fv
    (LuaValue.userdata E) (LuaValue.closure CFunc.errfuncC []) stA stA
    [LuaValue.userdata E] nres hp hhv hq
  simp only [call_framed]
  rw [hpc]
  have hst6 : ({ stA with
        stack := (S ++ [LuaValue.closure CFunc.errfuncC []])
          ++ [List.headD [LuaValue.userdata E] LuaValue.nil] } : LuaState).remove
        ((S.length : Int) + 1)
      = { stA with stack := S ++ [LuaValue.userdata E] } := by
    apply LuaState.ext' <;> try rfl
    show stackRemove ((S ++ [LuaValue.closure CFunc.errfuncC []])
      ++ [LuaValue.userdata E]) ((S.length : Int) + 1) = S ++ [LuaValue.userdata E]
    rw [List.append_assoc]
    exact stackRemove_at S _ [LuaValue.userdata E]
  rw [hst6]
  exact LuaState.run_result_err _ S E o e rfl hud htag hvalo

theorem LuaState.call_hostfn_err (st : LuaState) (pushes : List LuaValue) (e : RunError)
    (hreg : st.regLookup ("errfunc") = some (LuaValue.closure CFunc.errfuncC [])) :
    ∃ st' : LuaState,
      (st.push_function (HostFn.mk pushes (HostOutcome.err e))).call 0
          (LuaCallResults.Num 0)
        = (st', RunOutcome.err e) ∧ st'.stack = st.stack := by
  rw [st.push_function_zero (HostFn.mk pushes (HostOutcome.err e))]
  set stC : LuaState := { st with
      uds := st.uds ++
        [UserdataObj.mk none (UDValue.rawFn (HostFn.mk pushes (HostOutcome.err e))) none],
      stack := st.stack ++ [LuaValue.closure CFunc.trampoline
        [LuaValue.userdata st.uds.length]] } with hstC
  have hregC : stC.regLookup ("errfunc") = some (LuaValue.closure CFunc.errfuncC []) := hreg
  have hcall : stC.call 0 (LuaCallResults.Num 0)
      = call_framed stC st.stack [] (LuaValue.closure CFunc.errfuncC [])
          (LuaValue.closure CFunc.trampoline [LuaValue.userdata st.uds.length]) (some 0) :=
    stC.call_decomp st.stack []
      (LuaValue.closure CFunc.trampoline [LuaValue.userdata st.uds.length])
      (LuaCallResults.Num 0) hregC rfl (by norm_num)
  rw [hcall]
  set stA : LuaState := { stC with
      stack := st.stack ++ [LuaValue.closure CFunc.errfuncC []] } with hstA
  have hudA : stA.uds.get? st.uds.length
      = some (UserdataObj.mk none
          (UDValue.rawFn (HostFn.mk pushes (HostOutcome.err e))) none) :=
    get_len_app st.uds _ []
  obtain ⟨stT, m, hcv, hTuds⟩ :=
    callValue_hostfn_err stA st.uds.length
      (UserdataObj.mk none (UDValue.rawFn (HostFn.mk pushes (HostOutcome.err e))) none)
      pushes e hudA rfl
  have hudB : (callerView stA stT).uds.get? stA.uds.length
      = some (UserdataObj.mk (some TypeTag.runErrorT) (UDValue.runErr e) m) := by
    rw [callerView_uds, hTuds]
    exact get_len_app stA.uds _ []
  obtain ⟨st7, hres, hst7⟩ :=
    call_framed_err stC st.stack []
      (LuaValue.closure CFunc.trampoline [LuaValue.userdata st.uds.length])
      (callerView stA stT) stA.uds.length
      (UserdataObj.mk (some TypeTag.runErrorT) (UDValue.runErr e) m) e (some 0)
      hcv rfl hudB rfl rfl
  exact ⟨st7, hres, hst7⟩

theorem callValue_hostfn_panic (stA : LuaState) (N : Nat) (o : UserdataObj)
    (pushes : List LuaValue) (p : Nat)
    (hud : stA.uds.get? N = some o)
    (hval : o.val = UDValue.rawFn (HostFn.mk pushes (HostOutcome.panicked p))) :
    ∃ (stT : LuaState) (m : Option Nat),
      callValue stA (LuaValue.closure CFunc.trampoline [LuaValue.userdata N]) []
        = (callerView stA stT, CallOut.raised (LuaValue.userdata stA.uds.length)) ∧
      stT.uds = stA.uds ++
        [UserdataObj.mk (some TypeTag.panicT) (UDValue.panicPayload p) m] := by
  obtain ⟨stT, m, hT, hTuds, _, _, _⟩ :=
    runTrampoline_panic_spec (frameState stA [] [LuaValue.userdata N]) pushes p
  refine ⟨stT, m, ?_, by simpa using hTuds⟩
  rw [callValue_trampoline stA [LuaValue.userdata N] [] N o _ rfl hud hval, hT]
  simp

theorem call_framed_panic (st : LuaState) (S args : List LuaValue) (fv : LuaValue)
    (stA : LuaState) (E : Nat) (o : UserdataObj) (p : Nat) (nres : Option Nat)
    (hp : callValue { st with stack := S ++ [LuaValue.closure CFunc.errfuncC []] } fv args
        = (stA, CallOut.raised (LuaValue.userdata E)))
    (hAstack : stA.stack = S ++ [LuaValue.closure CFunc.errfuncC []])
    (hud : stA.uds.get? E = some o)
    (htag : o.tag = some TypeTag.panicT) (hvalo : o.val = UDValue.panicPayload p) :
    ∃ st7 : LuaState,
      call_framed st S args (LuaValue.closure CFunc.errfuncC []) fv nres
        = (st7, RunOutcome.hostPanic p) ∧ st7.stack = S := by
  have hhv : (stA.valueAtRaw ((S.length : Int) + 1)).getD LuaValue.nil
      = LuaValue.closure CFunc.errfuncC [] := by
    rw [stA.valueAtRaw_pos S _ [] hAstack]
    rfl
  have hq := callValue_errfunc_pass stA E o hud (Or.inr htag)
  have hpc := lua_pcall_framed_raised_ret
    { st with stack := S ++ LuaValue.closure CFunc.errfuncC [] :: fv :: args }
    S args (LuaValue.closure CFunc.errfuncC []) fv
    (LuaValue.userdata E) (LuaValue.closure CFunc.errfuncC []) stA stA
    [LuaValue.userdata E] nres hp hhv hq
  simp only [call_framed]
  rw [hpc]
  have hst6 : ({ stA with
        stack := (S ++ [LuaValue.closure CFunc.errfuncC []])
          ++ [List.headD [LuaValue.userdata E] LuaValue.nil] } : LuaState).remove
        ((S.length : Int) + 1)
      = { stA with stack := S ++ [LuaValue.userdata E] } := by
    apply LuaState.ext' <;> try rfl
    show stackRemove ((S ++ [LuaValue.closure CFunc.errfuncC []])
      ++ [LuaValue.userdata E]) ((S.length : Int) + 1) = S ++ [LuaValue.userdata E]
    rw [List.append_assoc]
    exact stackRemove_at S _ [LuaValue.userdata E]
  rw [hst6]
  exact LuaState.run_result_panic _ S E o p rfl hud htag hvalo

theorem LuaState.call_hostfn_panic (st : LuaState) (pushes : List LuaValue) (p : Nat)
    (hreg : st.regLookup ("errfunc") = some (LuaValue.closure CFunc.errfuncC [])) :
    ∃ st' : LuaState,
      (st.push_function (HostFn.mk pushes (HostOutcome.panicked p))).call 0
          (LuaCallResults.Num 0)
        = (st', RunOutcome.hostPanic p) ∧ st'.stack = st.stack := by
  rw [st.push_function_zero (HostFn.mk pushes (HostOutcome.panicked p))]
  set stC : LuaState := { st with
      uds := st.uds ++
        [UserdataObj.mk none
          (UDValue.rawFn (HostFn.mk pushes (HostOutcome.panicked p))) none],
      stack := st.stack ++ [LuaValue.closure CFunc.trampoline
        [LuaValue.userdata st.uds.length]] } with hstC
  have hregC : stC.regLookup ("errfunc") = some (LuaValue.closure CFunc.errfuncC []) := hreg
  have hcall : stC.call 0 (LuaCallResults.Num 0)
      = call_framed stC st.stack [] (LuaValue.closure CFunc.errfuncC [])
          (LuaValue.closure CFunc.trampoline [LuaValue.userdata st.uds.length]) (some 0) :=
    stC.call_decomp st.stack []
      (LuaValue.closure CFunc.trampoline [LuaValue.userdata st.uds.length])
      (LuaCallResults.Num 0) hregC rfl (by norm_num)
  rw [hcall]
  set stA : LuaState := { stC with
      stack := st.stack ++ [LuaValue.closure CFunc.errfuncC []] } with hstA
  have hudA : stA.uds.get? st.uds.length
      = some (UserdataObj.mk none
          (UDValue.rawFn (HostFn.mk pushes (HostOutcome.panicked p))) none) :=
    get_len_app st.uds _ []
  obtain ⟨stT, m, hcv, hTuds⟩ :=
    callValue_hostfn_panic stA st.uds.length
      (UserdataObj.mk none
        (UDValue.rawFn (HostFn.mk pushes (HostOutcome.panicked p))) none)
      pushes p hudA rfl
  have hudB : (callerView stA stT).uds.get? stA.uds.length
      = some (UserdataObj.mk (some TypeTag.panicT) (UDValue.panicPayload p) m) := by
    rw [callerView_uds, hTuds]
    exact get_len_app stA.uds _ []
  obtain ⟨st7, hres, hst7⟩ :=
    call_framed_panic stC st.stack []
      (LuaValue.closure CFunc.trampoline [LuaValue.userdata st.uds.length])
      (callerView stA stT) stA.uds.length
      (UserdataObj.mk (some TypeTag.panicT) (UDValue.panicPayload p) m) p (some 0)
      hcv rfl hudB rfl rfl
  exact ⟨st7, hres, hst7⟩

theorem lua_pcall_framed_ret_num (st : LuaState) (S args : List LuaValue)
    (efv fv : LuaValue) (stT : LuaState) (vals : List LuaValue) (k : Nat)
    (hp : callValue { st with stack := S ++ [efv] } fv args = (stT, CallOut.ret vals))
    (hk : k ≤ vals.length) :
    lua_pcall_framed st S args efv fv (some k)
      = ({ stT with stack := (S ++ [efv]) ++ vals.take k }, LUA_OK) := by
  simp only [lua_pcall_framed, hp]
  rw [if_pos hk]

theorem call_framed_ok (st : LuaState) (S args : List LuaValue) (fv : LuaValue)
    (stT : LuaState) (vals : List LuaValue) (k : Nat)
    (hp : callValue { st with stack := S ++ [LuaValue.closure CFunc.errfuncC []] } fv args
        = (stT, CallOut.ret vals))
    (hk : k ≤ vals.length) :
    call_framed st S args (LuaValue.closure CFunc.errfuncC []) fv (some k)
      = ({ stT with stack := S ++ vals.take k }, RunOutcome.ok) := by
  have hpc := lua_pcall_framed_ret_num
    { st with stack := S ++ LuaValue.closure CFunc.errfuncC [] :: fv :: args }
    S args (LuaValue.closure CFunc.errfuncC []) fv stT vals k hp hk
  simp only [call_framed]
  rw [hpc]
  have hst6 : ({ stT with
        stack := (S ++ [LuaValue.closure CFunc.errfuncC []]) ++ vals.take k } :
        LuaState).remove ((S.length : Int) + 1)
      = { stT with stack := S ++ vals.take k } := by
    apply LuaState.ext' <;> try rfl
    show stackRemove ((S ++ [LuaValue.closure CFunc.errfuncC []]) ++ vals.take k)
      ((S.length : Int) + 1) = S ++ vals.take k
    rw [List.append_assoc]
    exact stackRemove_at S _ (vals.take k)
  rw [hst6]
  exact LuaState.run_result_ok _

theorem call_framed_raised_str (st : LuaState) (S args : List LuaValue) (fv : LuaValue)
    (stA : LuaState) (msg : String) (nres : Option Nat)
    (hp : callValue { st with stack := S ++ [LuaValue.closure CFunc.errfuncC []] } fv args
        = (stA, CallOut.raised (LuaValue.str msg)))
    (hAstack : stA.stack = S ++ [LuaValue.closure CFunc.errfuncC []]) :
    ∃ (st7 : LuaState) (bt : List String),
      call_framed st S args (LuaValue.closure CFunc.errfuncC []) fv nres
        = (st7, RunOutcome.err (RunError.mk msg bt)) ∧ st7.stack = S := by
  have hhv : (stA.valueAtRaw ((S.length : Int) + 1)).getD LuaValue.nil
      = LuaValue.closure CFunc.errfuncC [] := by
    rw [stA.valueAtRaw_pos S _ [] hAstack]
    rfl
  obtain ⟨mt, stB, hq, hBstack, hBup, hBfr, hBreg, hBuds⟩ := callValue_errfunc_str stA msg
  have hpc := lua_pcall_framed_raised_ret
    { st with stack := S ++ LuaValue.closure CFunc.errfuncC [] :: fv :: args }
    S args (LuaValue.closure CFunc.errfuncC []) fv
    (LuaValue.str msg) (LuaValue.closure CFunc.errfuncC []) stA stB
    [LuaValue.userdata stA.uds.length] nres hp hhv hq
  simp only [call_framed]
  rw [hpc]
  have hst6 : ({ stB with
        stack := (S ++ [LuaValue.closure CFunc.errfuncC []])
          ++ [List.headD [LuaValue.userdata stA.uds.length] LuaValue.nil] } :
        LuaState).remove ((S.length : Int) + 1)
      = { stB with stack := S ++ [LuaValue.userdata stA.uds.length] } := by
    apply LuaState.ext' <;> try rfl
    show stackRemove ((S ++ [LuaValue.closure CFunc.errfuncC []])
      ++ [LuaValue.userdata stA.uds.length]) ((S.length : Int) + 1)
      = S ++ [LuaValue.userdata stA.uds.length]
    rw [List.append_assoc]
    exact stackRemove_at S _ [LuaValue.userdata stA.uds.length]
  rw [hst6]
  have hud6 : stB.uds.get? stA.uds.length
      = some (UserdataObj.mk (some TypeTag.runErrorT)
          (UDValue.runErr (RunError.mk msg ((cFrame :: stA.frames).map formatFrame))) mt) := by
    rw [hBuds]
    exact get_len_app stA.uds _ []
  obtain ⟨st7, hres, hst7⟩ :=
    LuaState.run_result_err { stB with stack := S ++ [LuaValue.userdata stA.uds.length] }
      S stA.uds.length _ (RunError.mk msg ((cFrame :: stA.frames).map formatFrame))
      rfl hud6 rfl rfl
  exact ⟨st7, _, hres, hst7⟩

theorem LuaState.call_chunk_ok (st : LuaState) (S args vals : List LuaValue)
    (hreg : st.regLookup ("errfunc") = some (LuaValue.closure CFunc.errfuncC []))
    (hstack : st.stack = S ++ LuaValue.chunkReturns vals :: args)
    (hn : args.length < 1000000) :
    ∃ st' : LuaState,
      st.call args.length (LuaCallResults.Num vals.length) = (st', RunOutcome.ok) ∧
      st'.stack = S ++ vals := by
  have hcall : st.call args.length (LuaCallResults.Num vals.length)
      = call_framed st S args (LuaValue.closure CFunc.errfuncC [])
          (LuaValue.chunkReturns vals) (some vals.length) :=
    st.call_decomp S args _ (LuaCallResults.Num vals.length) hreg hstack hn
  rw [hcall]
  have hp : callValue { st with stack := S ++ [LuaValue.closure CFunc.errfuncC []] }
      (LuaValue.chunkReturns vals) args
      = ({ st with stack := S ++ [LuaValue.closure CFunc.errfuncC []] }, CallOut.ret vals) :=
    callValue_chunkReturns _ vals args
  rw [call_framed_ok st S args (LuaValue.chunkReturns vals) _ vals vals.length hp
    (le_refl _)]
  refine ⟨_, rfl, ?_⟩
  show S ++ vals.take vals.length = S ++ vals
  rw [List.take_length]

theorem LuaState.call_chunk_raises (st : LuaState) (S args : List LuaValue)
    (msg : String)
    (hreg : st.regLookup ("errfunc") = some (LuaValue.closure CFunc.errfuncC []))
    (hstack : st.stack = S ++ LuaValue.chunkRaises (LuaValue.str msg) :: args)
    (hn : args.length < 1000000) :
    ∃ (st' : LuaState) (bt : List String),
      st.call args.length (LuaCallResults.Num 0)
        = (st', RunOutcome.err (RunError.mk msg bt)) ∧
      st'.stack = S := by
  have hcall : st.call args.length (LuaCallResults.Num 0)
      = call_framed st S args (LuaValue.closure CFunc.errfuncC [])
          (LuaValue.chunkRaises (LuaValue.str msg)) (some 0) :=
    st.call_decomp S args _ (LuaCallResults.Num 0) hreg hstack hn
  rw [hcall]
  exact call_framed_raised_str st S args _ _ msg (some 0)
    (callValue_chunkRaises _ _ args) rfl

theorem lookupT_insertT_self (t : LuaTable) (k : TKey) (v : LuaValue) :
    lookupT (insertT t k v) k = some v := by
  induction t with
  | nil => simp [insertT, lookupT]
  | cons p rest ih =>
      by_cases h : p.1 = k
      · simp [insertT, h, lookupT]
      · simp [insertT, h, lookupT, ih]

theorem get_set_ne {α : Type} (l : List α) (i j : Nat) (a : α) (h : i ≠ j) :
    (l.set i a).get? j = l.get? j := by
  induction l generalizing i j with
  | nil => simp
  | cons b rest ih =>
      cases i with
      | zero =>
          cases j with
          | zero => exact absurd rfl h
          | succ j' => simp
      | succ i' =>
          cases j with
          | zero => simp
          | succ j' => simpa using ih i' j' (by omega)

theorem LuaState.reg_field_spec (st : LuaState) (k : String) (v : LuaValue)
    (hreg : st.regLookup k = some v) :
    (st.get_internal_registry).get_field (LuaIndex.Stack (-1)) k
      = { st with stack := st.stack
            ++ [LuaValue.table st.regTableId, v] } := by
  obtain ⟨RT, hRT, hlook⟩ := Option.bind_eq_some.mp hreg
  have hv1 : ((st.get_internal_registry).valueAt (LuaIndex.Stack (-1))).getD LuaValue.nil
      = LuaValue.table st.regTableId := by
    have h := LuaState.valueAtRaw_neg1 st.get_internal_registry st.stack
      (LuaValue.table st.regTableId) rfl
    show ((st.get_internal_registry).valueAtRaw (-1)).getD LuaValue.nil = _
    rw [h]
    rfl
  simp only [get_field, hv1]
  apply LuaState.ext' <;> try rfl
  show st.stack ++ [LuaValue.table st.regTableId]
      ++ [(lookupT ((st.tables.get? st.regTableId).getD []) (TKey.kstr k)).getD
        LuaValue.nil]
    = st.stack ++ [LuaValue.table st.regTableId, v]
  simp only [hRT, Option.getD_some, hlook]
  simp

theorem LuaState.intern_spec (st : LuaState) (s : String) (sid : Nat)
    (hreg : st.regLookup ("string") = some (LuaValue.table sid)) :
    st.intern s
      = ({ st with tables := st.tables.set sid (setEntryT
            ((st.tables.get? sid).getD []) (TKey.kint (strPtr s)) (LuaValue.str s)) },
         LuaString.mk (strPtr s)) := by
  simp only [intern]
  rw [LuaState.reg_field_spec st ("string") (LuaValue.table sid) hreg]
  have h3 : ({ st with stack := st.stack
        ++ [LuaValue.table st.regTableId, LuaValue.table sid] } : LuaState).push_string s
      = { st with stack := st.stack
          ++ [LuaValue.table st.regTableId, LuaValue.table sid, LuaValue.str s] } := by
    apply LuaState.ext' <;> try rfl
    show (st.stack ++ [LuaValue.table st.regTableId, LuaValue.table sid])
        ++ [LuaValue.str s]
      = st.stack ++ [LuaValue.table st.regTableId, LuaValue.table sid, LuaValue.str s]
    simp
  rw [h3]
  have hv3 : ({ st with stack := st.stack
        ++ [LuaValue.table st.regTableId, LuaValue.table sid, LuaValue.str s] } :
        LuaState).valueAt (LuaIndex.Stack (-1)) = some (LuaValue.str s) :=
    LuaState.valueAtRaw_neg1 _
      (st.stack ++ [LuaValue.table st.regTableId, LuaValue.table sid])
      (LuaValue.str s) (by simp)
  have hptr : ({ st with stack := st.stack
        ++ [LuaValue.table st.regTableId, LuaValue.table sid, LuaValue.str s] } :
        LuaState).to_string_ptr (LuaIndex.Stack (-1)) = Except.ok (strPtr s) := by
    simp only [to_string_ptr, hv3]
  simp only [hptr]
  have h4 : ({ st with stack := st.stack
        ++ [LuaValue.table st.regTableId, LuaValue.table sid, LuaValue.str s] } :
        LuaState).push_unsigned (strPtr s)
      = { st with stack := st.stack
          ++ [LuaValue.table st.regTableId, LuaValue.table sid, LuaValue.str s,
            LuaValue.integer (strPtr s)] } := by
    apply LuaState.ext' <;> try rfl
    show (st.stack ++ [LuaValue.table st.regTableId, LuaValue.table sid, LuaValue.str s])
        ++ [LuaValue.integer (strPtr s)]
      = st.stack ++ [LuaValue.table st.regTableId, LuaValue.table sid, LuaValue.str s,
          LuaValue.integer (strPtr s)]
    simp
  rw [h4]
  have h5 : ({ st with stack := st.stack
        ++ [LuaValue.table st.regTableId, LuaValue.table sid, LuaValue.str s,
          LuaValue.integer (strPtr s)] } : LuaState).insert (-2)
      = { st with stack := st.stack
          ++ [LuaValue.table st.regTableId, LuaValue.table sid,
            LuaValue.integer (strPtr s), LuaValue.str s] } := by
    apply LuaState.ext' <;> try rfl
    show stackInsert (st.stack
        ++ [LuaValue.table st.regTableId, LuaValue.table sid, LuaValue.str s,
          LuaValue.integer (strPtr s)]) (-2)
      = st.stack ++ [LuaValue.table st.regTableId, LuaValue.table sid,
          LuaValue.integer (strPtr s), LuaValue.str s]
    have h := stackInsert_neg (st.stack ++ [LuaValue.table st.regTableId,
      LuaValue.table sid]) [LuaValue.str s] (LuaValue.integer (strPtr s))
    norm_num at h
    simpa using h
  rw [h5]
  have hv : (st.stack ++ [LuaValue.table st.regTableId, LuaValue.table sid,
        LuaValue.integer (strPtr s), LuaValue.str s]).getLast?.getD LuaValue.nil
      = LuaValue.str s := by
    rw [show st.stack ++ [LuaValue.table st.regTableId, LuaValue.table sid,
          LuaValue.integer (strPtr s), LuaValue.str s]
        = (st.stack ++ [LuaValue.table st.regTableId, LuaValue.table sid,
            LuaValue.integer (strPtr s)]) ++ [LuaValue.str s] by simp,
      List.getLast?_concat]
    rfl
  have hk : (st.stack ++ [LuaValue.table st.regTableId, LuaValue.table sid,
        LuaValue.integer (strPtr s), LuaValue.str s]).dropLast.getLast?.getD LuaValue.nil
      = LuaValue.integer (strPtr s) := by
    rw [show st.stack ++ [LuaValue.table st.regTableId, LuaValue.table sid,
          LuaValue.integer (strPtr s), LuaValue.str s]
        = (st.stack ++ [LuaValue.table st.regTableId, LuaValue.table sid,
            LuaValue.integer (strPtr s)]) ++ [LuaValue.str s] by simp,
      List.dropLast_concat]
    rw [show st.stack ++ [LuaValue.table st.regTableId, LuaValue.table sid,
          LuaValue.integer (strPtr s)]
        = (st.stack ++ [LuaValue.table st.regTableId, LuaValue.table sid])
          ++ [LuaValue.integer (strPtr s)] by simp,
      List.getLast?_concat]
    rfl
  have hdd : (st.stack ++ [LuaValue.table st.regTableId, LuaValue.table sid,
        LuaValue.integer (strPtr s), LuaValue.str s]).dropLast.dropLast
      = st.stack ++ [LuaValue.table st.regTableId, LuaValue.table sid] := by
    rw [show st.stack ++ [LuaValue.table st.regTableId, LuaValue.table sid,
          LuaValue.integer (strPtr s), LuaValue.str s]
        = (st.stack ++ [LuaValue.table st.regTableId, LuaValue.table sid,
            LuaValue.integer (strPtr s)]) ++ [LuaValue.str s] by simp,
      List.dropLast_concat]
    rw [show st.stack ++ [LuaValue.table st.regTableId, LuaValue.table sid,
          LuaValue.integer (strPtr s)]
        = (st.stack ++ [LuaValue.table st.regTableId, LuaValue.table sid])
          ++ [LuaValue.integer (strPtr s)] by simp,
      List.dropLast_concat]
  have ht : ({ st with stack := st.stack
        ++ [LuaValue.table st.regTableId, LuaValue.table sid,
          LuaValue.integer (strPtr s), LuaValue.str s] } : LuaState).valueAt
        (LuaIndex.Stack (-3)) = some (LuaValue.table sid) :=
    LuaState.valueAtRaw_neg3 _ (st.stack ++ [LuaValue.table st.regTableId])
      (LuaValue.table sid) (LuaValue.integer (strPtr s)) (LuaValue.str s) (by simp)
  have h6 : ({ st with stack := st.stack
        ++ [LuaValue.table st.regTableId, LuaValue.table sid,
          LuaValue.integer (strPtr s), LuaValue.str s] } : LuaState).raw_set
        (LuaIndex.Stack (-3))
      = { st with
          stack := st.stack ++ [LuaValue.table st.regTableId, LuaValue.table sid],
          tables := st.tables.set sid (setEntryT
            ((st.tables.get? sid).getD []) (TKey.kint (strPtr s)) (LuaValue.str s)) } := by
    simp only [raw_set, hv, hk, hdd, ht, Option.getD_some, keyOfValue, rawWrite,
      setTableEntry]
  rw [h6]
  have h7 : ({ st with
        stack := st.stack ++ [LuaValue.table st.regTableId, LuaValue.table sid],
        tables := st.tables.set sid (setEntryT
          ((st.tables.get? sid).getD []) (TKey.kint (strPtr s)) (LuaValue.str s)) } : LuaState).pop 2
      = { st with tables := st.tables.set sid (setEntryT
          ((st.tables.get? sid).getD []) (TKey.kint (strPtr s)) (LuaValue.str s)) } := by
    apply LuaState.ext' <;> try rfl
    have h := LuaState.pop_stack_app ({ st with
        stack := st.stack ++ [LuaValue.table st.regTableId, LuaValue.table sid],
        tables := st.tables.set sid (setEntryT
          ((st.tables.get? sid).getD []) (TKey.kint (strPtr s)) (LuaValue.str s)) } : LuaState) st.stack
      [LuaValue.table st.regTableId, LuaValue.table sid] rfl
    exact h
  rw [h7]

theorem LuaState.pushLuaString_spec (st : LuaState) (s : String) (sid : Nat)
    (T : LuaTable)
    (hreg : st.regLookup ("string") = some (LuaValue.table sid))
    (hT : st.tables.get? sid = some T)
    (hlook : lookupT T (TKey.kint (strPtr s)) = some (LuaValue.str s)) :
    st.pushLuaString (LuaString.mk (strPtr s))
      = { st with stack := st.stack ++ [LuaValue.str s] } := by
  simp only [pushLuaString]
  rw [LuaState.reg_field_spec st ("string") (LuaValue.table sid) hreg]
  have h3 : ({ st with stack := st.stack
        ++ [LuaValue.table st.regTableId, LuaValue.table sid] } : LuaState).remove (-2)
      = { st with stack := st.stack ++ [LuaValue.table sid] } := by
    apply LuaState.ext' <;> try rfl
    show stackRemove (st.stack ++ [LuaValue.table st.regTableId, LuaValue.table sid])
        (-2) = st.stack ++ [LuaValue.table sid]
    exact stackRemove_neg2a st.stack _ _
  rw [h3]
  have h4 : ({ st with stack := st.stack ++ [LuaValue.table sid] } :
        LuaState).push_unsigned (strPtr s)
      = { st with stack := st.stack
          ++ [LuaValue.table sid, LuaValue.integer (strPtr s)] } := by
    apply LuaState.ext' <;> try rfl
    show (st.stack ++ [LuaValue.table sid]) ++ [LuaValue.integer (strPtr s)]
      = st.stack ++ [LuaValue.table sid, LuaValue.integer (strPtr s)]
    simp
  rw [h4]
  have hkey : (st.stack ++ [LuaValue.table sid,
        LuaValue.integer (strPtr s)]).getLast?.getD LuaValue.nil
      = LuaValue.integer (strPtr s) := by
    rw [show st.stack ++ [LuaValue.table sid, LuaValue.integer (strPtr s)]
        = (st.stack ++ [LuaValue.table sid]) ++ [LuaValue.integer (strPtr s)] by simp,
      List.getLast?_concat]
    rfl
  have ht : ({ st with stack := st.stack
        ++ [LuaValue.table sid, LuaValue.integer (strPtr s)] } : LuaState).valueAt
        (LuaIndex.Stack (-2)) = some (LuaValue.table sid) :=
    LuaState.valueAtRaw_neg2 _ st.stack (LuaValue.table sid)
      (LuaValue.integer (strPtr s)) rfl
  have hdl : (st.stack ++ [LuaValue.table sid,
        LuaValue.integer (strPtr s)]).dropLast = st.stack ++ [LuaValue.table sid] :=
    dropLast_app2 st.stack _ _
  have h5 : ({ st with stack := st.stack
        ++ [LuaValue.table sid, LuaValue.integer (strPtr s)] } : LuaState).raw_get
        (LuaIndex.Stack (-2))
      = { st with stack := st.stack ++ [LuaValue.table sid, LuaValue.str s] } := by
    simp only [raw_get, hkey, ht, hdl, Option.getD_some, keyOfValue, rawLookup, hT,
      hlook]
    apply LuaState.ext' <;> simp
  rw [h5]
  apply LuaState.ext' <;> try rfl
  show stackRemove (st.stack ++ [LuaValue.table sid, LuaValue.str s]) (-2)
    = st.stack ++ [LuaValue.str s]
  exact stackRemove_neg2a st.stack _ _

theorem LuaState.to_string_top (st : LuaState) (l : List LuaValue) (s : String)
    (h : st.stack = l ++ [LuaValue.str s]) :
    (st.to_string (LuaIndex.Stack (-1))).2 = Except.ok s := by
  have hv : st.valueAt (LuaIndex.Stack (-1)) = some (LuaValue.str s) :=
    LuaState.valueAtRaw_neg1 st l _ h
  simp only [to_string, hv, toStringVal]

theorem LuaState.push_userdata_at (st : LuaState) (tag : TypeTag) (v : UDValue) :
    (st.push_userdata tag v).userdata_at tag (LuaIndex.Stack (-1)) = Except.ok v ∧
    (∀ utag : TypeTag, utag ≠ tag →
      (st.push_userdata tag v).userdata_at utag (LuaIndex.Stack (-1))
        = Except.error (RunError.conversion_from_lua (some LuaType.Userdata)
            (typeNameOf utag) (st.push_userdata tag v).backtrace)) := by
  obtain ⟨hstk, ⟨m, huds⟩, hfr, hup, hreg⟩ := LuaState.push_userdata_spec st tag v
  have hv : (st.push_userdata tag v).valueAt (LuaIndex.Stack (-1))
      = some (LuaValue.userdata st.uds.length) :=
    LuaState.valueAtRaw_neg1 _ st.stack _ hstk
  have hud : (st.push_userdata tag v).uds.get? st.uds.length
      = some (UserdataObj.mk (some tag) v m) := by
    rw [huds]
    exact get_len_app st.uds _ []
  constructor
  · simp only [userdata_at, hv, hud]
    simp
  · intro utag hne
    simp only [userdata_at, hv, hud]
    rw [if_neg (show ¬ ((UserdataObj.mk (some tag) v m).tag = some utag) by
      show ¬ (some tag = some utag)
      simp only [Option.some.injEq]
      exact fun h => hne h.symm)]

theorem LuaState.userdata_at_str (st : LuaState) (tag : TypeTag)
    (l : List LuaValue) (s : String) (h : st.stack = l ++ [LuaValue.str s]) :
    st.userdata_at tag (LuaIndex.Stack (-1))
      = Except.error (RunError.conversion_from_lua (some LuaType.String)
          (typeNameOf tag) st.backtrace) := by
  have hv : st.valueAt (LuaIndex.Stack (-1)) = some (LuaValue.str s) :=
    LuaState.valueAtRaw_neg1 st l _ h
  have hty : st.type_at (LuaIndex.Stack (-1)) = some LuaType.String := by
    simp only [type_at, hv]
    rfl
  simp only [userdata_at, hv, hty]

/-- C1: a host callback that panics has the panic caught at the trampoline, boxed as a
tagged panic-payload userdata and raised through the VM error channel; when the
enclosing protected call returns with that payload, `lua_to_rust_run_result` re-raises
it as a host-side non-local exit (`resume_unwind`), never as an ordinary `RunError`. -/
theorem trampoline_panic_containment (st stF : LuaState) (pushes : List LuaValue)
    (p : Nat)
    (hreg : st.regLookup ("errfunc") = some (LuaValue.closure CFunc.errfuncC [])) :
    (∃ stT : LuaState,
      runTrampoline stF (HostFn.mk pushes (HostOutcome.panicked p))
        = (stT, CallOut.raised (LuaValue.userdata stF.uds.length)) ∧
      ∃ m : Option Nat, stT.uds.get? stF.uds.length
        = some (UserdataObj.mk (some TypeTag.panicT) (UDValue.panicPayload p) m)) ∧
    (∃ st' : LuaState,
      (st.push_function (HostFn.mk pushes (HostOutcome.panicked p))).call 0
          (LuaCallResults.Num 0)
        = (st', RunOutcome.hostPanic p) ∧ st'.stack = st.stack) := by
  constructor
  · obtain ⟨stT, m, hT, hTuds, _, _, _⟩ := runTrampoline_panic_spec stF pushes p
    exact ⟨stT, hT, m, by rw [hTuds]; exact get_len_app stF.uds _ []⟩
  · exact st.call_hostfn_panic pushes p hreg

theorem trampoline_panic_containment_witness :
    LuaState.new.regLookup ("errfunc") = some (LuaValue.closure CFunc.errfuncC []) ∧
    (∃ st' : LuaState,
      (LuaState.new.push_function (HostFn.mk [] (HostOutcome.panicked 42))).call 0
          (LuaCallResults.Num 0)
        = (st', RunOutcome.hostPanic 42) ∧ st'.stack = LuaState.new.stack) :=
  ⟨rfl, (trampoline_panic_containment LuaState.new LuaState.new [] 42 rfl).2⟩

/-- C2: the protected-call error handler passes an already-tagged error userdata
through unchanged, and coerces any other value into a `RunError` userdata carrying the
stringified message and a freshly captured backtrace, so a surfaced error gains its
backtrace exactly once. -/
theorem errfunc_backtrace_once (st su : LuaState) (e eu : LuaValue)
    (hstack : st.stack = [e])
    (htag : (st.is_userdata_of_type TypeTag.runErrorT (LuaIndex.Stack 1)
      || st.is_userdata_of_type TypeTag.panicT (LuaIndex.Stack 1)) = true)
    (hustack : su.stack = [eu])
    (hutag : (su.is_userdata_of_type TypeTag.runErrorT (LuaIndex.Stack 1)
      || su.is_userdata_of_type TypeTag.panicT (LuaIndex.Stack 1)) = false) :
    errfunc st = (st, CallOut.ret [e]) ∧
    errfunc su = (su.push_userdata TypeTag.runErrorT
        (UDValue.runErr (RunError.mk ((LuaState.toStringVal eu).getD "unknown error")
          su.backtrace)),
      CallOut.ret [LuaValue.userdata su.uds.length]) :=
  ⟨errfunc_pass st e hstack htag, errfunc_coerce su eu hustack hutag⟩

theorem errfunc_backtrace_once_witness :
    ({ LuaState.new with
        stack := [LuaValue.userdata 0],
        uds := [UserdataObj.mk (some TypeTag.runErrorT)
          (UDValue.runErr (RunError.mk ("m") [])) none] } : LuaState).stack
      = [LuaValue.userdata 0] ∧
    errfunc { LuaState.new with
        stack := [LuaValue.userdata 0],
        uds := [UserdataObj.mk (some TypeTag.runErrorT)
          (UDValue.runErr (RunError.mk ("m") [])) none] }
      = ({ LuaState.new with
          stack := [LuaValue.userdata 0],
          uds := [UserdataObj.mk (some TypeTag.runErrorT)
            (UDValue.runErr (RunError.mk ("m") [])) none] },
        CallOut.ret [LuaValue.userdata 0]) ∧
    errfunc { LuaState.new with stack := [LuaValue.str ("raw")] }
      = (({ LuaState.new with stack := [LuaValue.str ("raw")] } :
            LuaState).push_userdata TypeTag.runErrorT
          (UDValue.runErr (RunError.mk
            ((LuaState.toStringVal (LuaValue.str ("raw"))).getD "unknown error")
            ({ LuaState.new with stack := [LuaValue.str ("raw")] } :
              LuaState).backtrace)),
        CallOut.ret [LuaValue.userdata
          ({ LuaState.new with stack := [LuaValue.str ("raw")] } :
            LuaState).uds.length]) := by
  refine ⟨rfl, ?_⟩
  exact errfunc_backtrace_once _ _ (LuaValue.userdata 0) (LuaValue.str ("raw"))
    rfl rfl rfl rfl

/-- C3: with the stack holding a callable followed by its arguments on top, `call`
removes the callable and arguments, leaves exactly the requested number of returned
values above the pre-call height in push order on success, and on a raised error the
inserted handler is consumed and removed again, the error surfacing as a coerced
`RunError`; either way the handler does not remain on the stack. -/
theorem call_result_framing :
    (∀ (st : LuaState) (S args vals : List LuaValue),
      st.regLookup ("errfunc") = some (LuaValue.closure CFunc.errfuncC []) →
      st.stack = S ++ LuaValue.chunkReturns vals :: args →
      args.length < 1000000 →
      ∃ st' : LuaState,
        st.call args.length (LuaCallResults.Num vals.length) = (st', RunOutcome.ok) ∧
        st'.stack = S ++ vals) ∧
    (∀ (st : LuaState) (S args : List LuaValue) (msg : String),
      st.regLookup ("errfunc") = some (LuaValue.closure CFunc.errfuncC []) →
      st.stack = S ++ LuaValue.chunkRaises (LuaValue.str msg) :: args →
      args.length < 1000000 →
      ∃ (st' : LuaState) (bt : List String),
        st.call args.length (LuaCallResults.Num 0)
          = (st', RunOutcome.err (RunError.mk msg bt)) ∧
        st'.stack = S) :=
  ⟨fun st S args vals h1 h2 h3 => st.call_chunk_ok S args vals h1 h2 h3,
   fun st S args msg h1 h2 h3 => st.call_chunk_raises S args msg h1 h2 h3⟩

/-- C4: a host callback returning `Err(RunError)` with message "Test error~" makes the
enclosing `call` return `Err` of a run error with exactly that message: the explicit
failure is boxed as a `RunError` userdata, raised through the VM error channel like a
caught panic, and moved back out on the host side. -/
theorem call_error_roundtrip (st : LuaState) (pushes : List LuaValue)
    (bt : List String)
    (hreg : st.regLookup ("errfunc") = some (LuaValue.closure CFunc.errfuncC [])) :
    ∃ st' : LuaState,
      (st.push_function (HostFn.mk pushes
          (HostOutcome.err (RunError.mk ("Test error~") bt)))).call 0
          (LuaCallResults.Num 0)
        = (st', RunOutcome.err (RunError.mk ("Test error~") bt)) ∧
      st'.stack = st.stack :=
  st.call_hostfn_err pushes (RunError.mk ("Test error~") bt) hreg

theorem call_error_roundtrip_witness :
    LuaState.new.regLookup ("errfunc") = some (LuaValue.closure CFunc.errfuncC []) ∧
    (∃ st' : LuaState,
      (LuaState.new.push_function (HostFn.mk []
          (HostOutcome.err (RunError.mk ("Test error~") [])))).call 0
          (LuaCallResults.Num 0)
        = (st', RunOutcome.err (RunError.mk ("Test error~") [])) ∧
      st'.stack = LuaState.new.stack) :=
  ⟨rfl, call_error_roundtrip LuaState.new [] [] rfl⟩

/-- C5 (contradicted by the code): a failed `load_string` leaves the syntax-error
message on the stack — the top after the failed load is one above the top before it,
although the documentation promises that nothing is pushed. -/
theorem load_syntax_pushes_message :
    ((LuaState.new.load_string (Source.syntaxBad ("bad chunk")) ("test")).1.get_top
      = LuaState.new.get_top + 1) ∧
    ((LuaState.new.load_string (Source.syntaxBad ("bad chunk")) ("test")).2
      = LoadOutcome.err (LoadError.Syntax ("bad chunk"))) ∧
    ((LuaState.new.load_string (Source.syntaxBad ("bad chunk")) ("test")).1.stack
      = [LuaValue.str ("bad chunk")]) := by
  refine ⟨rfl, rfl, rfl⟩

/-- C6: `State::at` saves the stack top before running the `FromLua` conversion and
restores it afterwards, so the stack occupancy after any typed read — succeeding or
failing, whatever the conversion does to the stack — equals the occupancy before it. -/
theorem at_stack_neutral {α : Type} (st : LuaState)
    (fl : LuaState → LuaIndex → LuaState × Except RunError α) (idx : LuaIndex) :
    (LuaState.«at» st fl idx).1.get_top = st.get_top :=
  st.at_get_top fl idx

/-- C7: interning a string, pushing the returned handle and reading the value back as a
string yields exactly the original string, and interning the same string twice yields
equal handles. -/
theorem intern_roundtrip (st : LuaState) (s : String) (sid : Nat)
    (hreg : st.regLookup ("string") = some (LuaValue.table sid))
    (hne : sid ≠ st.regTableId) (hlt : sid < st.tables.length) :
    (((st.intern s).1.pushLuaString (st.intern s).2).«at» LuaState.fromLuaString
        (LuaIndex.Stack (-1))).2 = Except.ok s ∧
    ((st.intern s).1.intern s).2 = (st.intern s).2 := by
  rw [LuaState.intern_spec st s sid hreg]
  set E : LuaTable := setEntryT ((st.tables.get? sid).getD []) (TKey.kint (strPtr s))
    (LuaValue.str s) with hE
  set st1 : LuaState := { st with tables := st.tables.set sid E } with hst1
  have hreg1 : st1.regLookup ("string") = some (LuaValue.table sid) := by
    show ((st.tables.set sid E).get? st.regTableId).bind
        (fun t => lookupT t (TKey.kstr ("string"))) = some (LuaValue.table sid)
    rw [get_set_ne st.tables sid st.regTableId E hne]
    exact hreg
  have hT1 : st1.tables.get? sid = some E := by
    show (st.tables.set sid E).get? sid = some E
    exact List.get?_set_eq_of_lt _ hlt
  have hlook1 : lookupT E (TKey.kint (strPtr s)) = some (LuaValue.str s) := by
    show lookupT (insertT ((st.tables.get? sid).getD []) (TKey.kint (strPtr s))
      (LuaValue.str s)) (TKey.kint (strPtr s)) = some (LuaValue.str s)
    exact lookupT_insertT_self _ _ _
  constructor
  · show ((st1.pushLuaString (LuaString.mk (strPtr s))).«at» LuaState.fromLuaString
        (LuaIndex.Stack (-1))).2 = Except.ok s
    rw [LuaState.pushLuaString_spec st1 s sid E hreg1 hT1 hlook1]
    rw [LuaState.at_fromLuaString]
    exact LuaState.to_string_top _ st1.stack s rfl
  · show (st1.intern s).2 = LuaString.mk (strPtr s)
    rw [LuaState.intern_spec st1 s sid hreg1]

theorem intern_roundtrip_witness :
    LuaState.new.regLookup ("string") = some (LuaValue.table 1) ∧
    ((((LuaState.new.intern ("hello")).1.pushLuaString
        (LuaState.new.intern ("hello")).2).«at» LuaState.fromLuaString
        (LuaIndex.Stack (-1))).2 = Except.ok ("hello") ∧
      ((LuaState.new.intern ("hello")).1.intern ("hello")).2
        = (LuaState.new.intern ("hello")).2) :=
  ⟨rfl, intern_roundtrip LuaState.new ("hello") 1 rfl (by decide) (by decide)⟩

/-- C8: after `push_userdata` of a tagged value, `userdata_at` with the same tag
returns the stored content unchanged; reading with a different tag yields a typed
conversion error naming the expected host type, and reading a non-userdata slot (here a
string) yields a typed conversion error naming the actual VM type — never a crash. -/
theorem userdata_identity (st : LuaState) (tag utag : TypeTag) (v : UDValue)
    (l : List LuaValue) (s : String) (hne : utag ≠ tag)
    (hstk : st.stack = l ++ [LuaValue.str s]) :
    ((st.push_userdata tag v).userdata_at tag (LuaIndex.Stack (-1)) = Except.ok v) ∧
    ((st.push_userdata tag v).userdata_at utag (LuaIndex.Stack (-1))
      = Except.error (RunError.conversion_from_lua (some LuaType.Userdata)
          (typeNameOf utag) ((st.push_userdata tag v).backtrace))) ∧
    (st.userdata_at utag (LuaIndex.Stack (-1))
      = Except.error (RunError.conversion_from_lua (some LuaType.String)
          (typeNameOf utag) st.backtrace)) := by
  obtain ⟨h1, h2⟩ := st.push_userdata_at tag v
  exact ⟨h1, h2 utag hne, st.userdata_at_str utag l s hstk⟩

theorem userdata_identity_witness :
    (TypeTag.hostT 1 ≠ TypeTag.hostT 0) ∧
    ((({ LuaState.new with stack := [LuaValue.str ("x")] } :
          LuaState).push_userdata (TypeTag.hostT 0)
          (UDValue.hostBytes [1, 2, 3])).userdata_at (TypeTag.hostT 0)
        (LuaIndex.Stack (-1)) = Except.ok (UDValue.hostBytes [1, 2, 3]) ∧
      (({ LuaState.new with stack := [LuaValue.str ("x")] } :
          LuaState).push_userdata (TypeTag.hostT 0)
          (UDValue.hostBytes [1, 2, 3])).userdata_at (TypeTag.hostT 1)
        (LuaIndex.Stack (-1))
        = Except.error (RunError.conversion_from_lua (some LuaType.Userdata)
            (typeNameOf (TypeTag.hostT 1))
            ((({ LuaState.new with stack := [LuaValue.str ("x")] } :
              LuaState).push_userdata (TypeTag.hostT 0)
              (UDValue.hostBytes [1, 2, 3])).backtrace)) ∧
      ({ LuaState.new with stack := [LuaValue.str ("x")] } :
          LuaState).userdata_at (TypeTag.hostT 1) (LuaIndex.Stack (-1))
        = Except.error (RunError.conversion_from_lua (some LuaType.String)
            (typeNameOf (TypeTag.hostT 1))
            ({ LuaState.new with stack := [LuaValue.str ("x")] } :
              LuaState).backtrace)) := by
  refine ⟨by decide, ?_⟩
  exact userdata_identity { LuaState.new with stack := [LuaValue.str ("x")] }
    (TypeTag.hostT 0) (TypeTag.hostT 1) (UDValue.hostBytes [1, 2, 3]) [] ("x")
    (by decide) rfl

/-- C9 (amended): `State::new` creates the internal registry table holding the error
handler under "errfunc" and the three sub-tables "string", "mt" and "user" — but it
installs no custom panic hook: the `lua_atpanic` call in the source is commented out. -/
theorem new_registry_contents :
    LuaState.new.regLookup ("errfunc") = some (LuaValue.closure CFunc.errfuncC []) ∧
    LuaState.new.regLookup ("string") = some (LuaValue.table 1) ∧
    LuaState.new.regLookup ("mt") = some (LuaValue.table 2) ∧
    LuaState.new.regLookup ("user") = some (LuaValue.table 3) ∧
    LuaState.new.tables.length = 4 :=
  ⟨rfl, rfl, rfl, rfl, rfl⟩

/-- C9, counterexample to the panic-hook conjunct: the freshly constructed state has no
panic hook installed (`lua_atpanic` is `UNDONE` in `State::new`). -/
theorem new_no_panic_hook : LuaState.new.atpanicHook = none := rfl

/-- C10: `State::set_top` asserts `idx >= 0` — every negative index panics the wrapper
(despite its own documentation), and the VM set-top primitive is reached only with a
non-negative index. -/
theorem set_top_negative_panics :
    (∀ (st : LuaState) (idx : Int), idx < 0 → st.set_top idx = none) ∧
    (∀ (st : LuaState) (idx : Int), 0 ≤ idx →
      st.set_top idx = some (st.lua_settop idx)) := by
  constructor
  · intro st idx h
    simp [LuaState.set_top, h]
  · intro st idx h
    simp [LuaState.set_top, not_lt.mpr h]
